import Mathlib

/-!
# The queued packet filter of ndisapi-go

A shallow embedding of `driver/queued_packet_filter.go` (the filter controller, its
lifecycle and the four pipeline stages) and of `SetAdapterMode` / `GetAdapterMode`
from `ndisapi_adapter.go`, followed by the properties established about them.

Conventions of the embedding:

* a Go method with receiver `f` becomes a function that takes the controller and returns
  the controller it leaves behind, together with the Go return value;
* a buffered channel is the list of the blocks it holds, oldest first; its capacity is the
  one given at construction, `MaximumPacketBlock`;
* a Go runtime panic (index out of range) and a send that blocks for ever on a full
  channel are the two values of `Fault`;
* a pointer `&packetBlock.packetBuffer[i]` kept in a batch is the index `i`;
* a callback is handed a pointer to the buffer and may write through it: it returns its
  verdict together with the buffer as it leaves it;
* a goroutine is a record of the method it runs, the context it was given and the place
  it has reached in its loop; the process is the controller with all its goroutines, those
  of earlier sessions included, since `StopFilter` waits for none;
* whatever the operating system or the driver answers is a parameter of the function
  that asks;
* the constants of package `ndisapi` that the sources use without declaring them are the
  fields of `Config`, and the theorems hold for every choice of them.
-/

namespace NdisApi

/-! ## Constants and plain data -/

/-- Constants of package `ndisapi` (`A.`) that the sources use and whose declarations are
not among them; they are parameters of the development. -/
structure Config where
  MaximumPacketBlock : Nat
  PACKET_FLAG_ON_SEND : Nat
  PACKET_FLAG_ON_RECEIVE : Nat
  FilterActionPass : Nat
  FilterActionDrop : Nat
  FilterActionRedirect : Nat
  MSTCP_FLAG_SENT_TUNNEL : Nat
  MSTCP_FLAG_RECV_TUNNEL : Nat
deriving DecidableEq, Repr

/-- The named constants denote different values: the two direction flags differ and the
three verdicts differ pairwise. -/
def Config.Distinct (P : Config) : Prop :=
  P.PACKET_FLAG_ON_SEND ≠ P.PACKET_FLAG_ON_RECEIVE ∧
  P.FilterActionPass ≠ P.FilterActionRedirect ∧
  P.FilterActionDrop ≠ P.FilterActionPass ∧
  P.FilterActionDrop ≠ P.FilterActionRedirect

instance (P : Config) : Decidable P.Distinct := by
  unfold Config.Distinct; infer_instance

/-- A concrete choice of the constants with a pool of four blocks, used to evaluate the
definitions. -/
def sampleConfig : Config where
  MaximumPacketBlock := 4
  PACKET_FLAG_ON_SEND := 1
  PACKET_FLAG_ON_RECEIVE := 2
  FilterActionPass := 0
  FilterActionDrop := 1
  FilterActionRedirect := 2
  MSTCP_FLAG_SENT_TUNNEL := 1
  MSTCP_FLAG_RECV_TUNNEL := 2

/-- The adapter handle `A.Handle`. -/
abbrev Handle := Nat

/-- A Go `error` value, by its message. -/
abbrev Error := String

/-- The two ways a call fails to return: a runtime panic on an index out of range, and a
channel send that finds the channel full, where the caller blocks. -/
inductive Fault where
  | indexOutOfRange
  | blockedOnSend
deriving DecidableEq, Repr

/-- The lifecycle state `N.FilterState`. -/
inductive FilterState where
  | Stopped
  | Starting
  | Running
  | Stopping
deriving DecidableEq, Repr

/-- The raw packet buffer `A.IntermediateBuffer`: the device flags the classify stage reads,
and the rest of the packet as bytes. -/
structure IntermediateBuffer where
  DeviceFlags : Nat
  Buffer : List Nat
deriving DecidableEq, Repr

/-- The batch request `A.EtherMultiRequest`. `EthernetPackets[k]` is the `Buffer` pointer
of slot `k`: `some i` points at `packetBuffer[i]`, `none` is nil. -/
structure EtherMultiRequest where
  AdapterHandle : Handle
  PacketsNumber : Nat
  PacketsSuccess : Nat
  EthernetPackets : List (Option Nat)
deriving DecidableEq, Repr

/-- The packet block: the buffer array and its three batch requests. -/
structure PacketBlock where
  packetBuffer : List IntermediateBuffer
  readRequest : EtherMultiRequest
  writeAdapterRequest : EtherMultiRequest
  writeMstcpRequest : EtherMultiRequest
deriving DecidableEq, Repr

/-- Modelled from the spec: `NewPacketBlock`, which is not among the sources. A block is a
fixed array of N buffers, a read request over all of them with nothing read yet, and two
write requests of capacity N and count zero. -/
def NewPacketBlock (P : Config) (adapter : Handle) : PacketBlock where
  packetBuffer := List.replicate P.MaximumPacketBlock ⟨0, []⟩
  readRequest := ⟨adapter, P.MaximumPacketBlock, 0, (List.range P.MaximumPacketBlock).map some⟩
  writeAdapterRequest := ⟨adapter, 0, 0, List.replicate P.MaximumPacketBlock none⟩
  writeMstcpRequest := ⟨adapter, 0, 0, List.replicate P.MaximumPacketBlock none⟩

/-- The batch a write request carries: its first `PacketsNumber` buffer pointers. -/
def EtherMultiRequest.batch (r : EtherMultiRequest) : List (Option Nat) :=
  r.EthernetPackets.take r.PacketsNumber

/-- Modelled from the spec: the per-adapter handle `NetworkAdapter`, whose declaration is
not among the sources: the identity of the adapter and its session state, the
notification event and the current mode flags. -/
structure NetworkAdapter where
  handle : Handle
  InternalName : String
  FriendlyName : String
  CurrentAddress : List Nat
  Medium : Nat
  MTU : Nat
  eventSet : Bool
  mode : Nat
deriving DecidableEq, Repr

/-- The adapter list `A.TcpAdapterList`: a count and one array per attribute. -/
structure TcpAdapterList where
  AdapterCount : Nat
  AdapterNameList : List String
  AdapterHandle : List Handle
  AdapterMediumList : List Nat
  CurrentAddress : List (List Nat)
  MTU : List Nat
deriving DecidableEq, Repr

/-- A classification callback `func(handle A.Handle, buffer *A.IntermediateBuffer)
A.FilterAction`. It is handed a pointer to the buffer, so it may rewrite the packet, its
device flags included: the result is the verdict returned together with the buffer as the
callback leaves it. -/
abbrev PacketCallback := Handle → IntermediateBuffer → Nat × IntermediateBuffer

/-- The four stages, by the method the worker goroutine runs. -/
inductive Stage where
  | packetRead
  | packetProcess
  | packetWriteMstcp
  | packetWriteAdapter
deriving DecidableEq, Repr

/-- The controller `QueuedPacketFilter`. `wg` is the wait-group counter. Contexts are
numbered in the order `context.WithCancel` makes them: `ctxMade` counts those made so far,
`cancelFunc` is the context the stored cancel function cancels (`none` for nil) and
`ctxDone` lists the contexts that are done. `started` records the `go` statements executed
so far. -/
structure QueuedPacketFilter where
  adapters : TcpAdapterList
  filterIncomingPacket : Option PacketCallback
  filterOutgoingPacket : Option PacketCallback
  filterState : FilterState
  networkInterfaces : List NetworkAdapter
  adapter : Int
  wg : Nat
  cancelFunc : Option Nat
  ctxMade : Nat
  ctxDone : List Nat
  started : List Stage
  packetReadChan : List PacketBlock
  packetProcessChan : List PacketBlock
  packetWriteMstcpChan : List PacketBlock
  packetWriteAdapterChan : List PacketBlock

/-! ## Channels and adapter lookup -/

/-- The send `ch <- b` on a channel of capacity `MaximumPacketBlock`. -/
def chanSend (P : Config) (ch : List PacketBlock) (b : PacketBlock) :
    Except Fault (List PacketBlock) :=
  if ch.length < P.MaximumPacketBlock then .ok (ch ++ [b]) else .error .blockedOnSend

/-- The loop `for len(ch) > 0 { <-ch }`. -/
def drainChan : List PacketBlock → List PacketBlock
  | [] => []
  | _ :: rest => drainChan rest

/-- The indexing `f.networkInterfaces[f.adapter]`. -/
def currentAdapter (f : QueuedPacketFilter) : Except Fault NetworkAdapter :=
  if 0 ≤ f.adapter then
    match f.networkInterfaces[f.adapter.toNat]? with
    | some na => .ok na
    | none => .error .indexOutOfRange
  else .error .indexOutOfRange

/-- The selected adapter replaced by `na` (the slice holds pointers, so a method call on
the element changes it in place). -/
def setCurrentAdapter (f : QueuedPacketFilter) (na : NetworkAdapter) : QueuedPacketFilter :=
  { f with networkInterfaces := f.networkInterfaces.set f.adapter.toNat na }

/-! ## The classify stage -/

/-- One assignment `req.EthernetPackets[req.PacketsNumber].Buffer = &packetBuffer[i]`
followed by `req.PacketsNumber++`. The count stays within the length of the array, so the
32-bit counter does not wrap. -/
def appendPacket (r : EtherMultiRequest) (i : Nat) : Except Fault EtherMultiRequest :=
  if r.PacketsNumber < r.EthernetPackets.length then
    .ok { r with EthernetPackets := r.EthernetPackets.set r.PacketsNumber (some i),
                 PacketsNumber := r.PacketsNumber + 1 }
  else .error .indexOutOfRange

/-- The first part of the loop body of `packetProcess`: `packetAction` starts as Pass, and
the outbound callback, for a buffer flagged sent, or the inbound callback, for any other,
is called on the buffer when it is present. The result is the verdict and the buffer as
the call leaves it. -/
def packetAction (P : Config) (q : QueuedPacketFilter) (h : Handle)
    (buf : IntermediateBuffer) : Nat × IntermediateBuffer :=
  if buf.DeviceFlags = P.PACKET_FLAG_ON_SEND then
    match q.filterOutgoingPacket with
    | some cb => cb h buf
    | none => (P.FilterActionPass, buf)
  else
    match q.filterIncomingPacket with
    | some cb => cb h buf
    | none => (P.FilterActionPass, buf)

/-- The body of the loop of `packetProcess` for index `i`. The callback works on
`packetBuffer[i]` in place, and the tests that choose the batch read the device flags of
the buffer after the call. -/
def classifyPacket (P : Config) (q : QueuedPacketFilter) (b : PacketBlock) (i : Nat) :
    Except Fault PacketBlock :=
  match b.packetBuffer[i]? with
  | none => .error .indexOutOfRange
  | some buf =>
    let called := packetAction P q b.readRequest.AdapterHandle buf
    let b := { b with packetBuffer := b.packetBuffer.set i called.2 }
    if called.1 = P.FilterActionPass then
      if called.2.DeviceFlags = P.PACKET_FLAG_ON_SEND then
        (appendPacket b.writeAdapterRequest i).map fun r => { b with writeAdapterRequest := r }
      else
        (appendPacket b.writeMstcpRequest i).map fun r => { b with writeMstcpRequest := r }
    else if called.1 = P.FilterActionRedirect then
      if called.2.DeviceFlags = P.PACKET_FLAG_ON_RECEIVE then
        (appendPacket b.writeAdapterRequest i).map fun r => { b with writeAdapterRequest := r }
      else
        (appendPacket b.writeMstcpRequest i).map fun r => { b with writeMstcpRequest := r }
    else .ok b

/-- The loop `for i := ...; i < int(readRequest.PacketsSuccess); i++` of `packetProcess`,
from index `i` with `n` iterations left. -/
def classifyLoop (P : Config) (q : QueuedPacketFilter) :
    PacketBlock → Nat → Nat → Except Fault PacketBlock
  | b, _, 0 => .ok b
  | b, i, n + 1 =>
    match classifyPacket P q b i with
    | .ok b1 => classifyLoop P q b1 (i + 1) n
    | .error e => .error e

/-- What `packetProcess` does to the block it took, up to the send: the loop over the
captured packets, then `readRequest.PacketsSuccess = 0`. -/
def classifyBlock (P : Config) (q : QueuedPacketFilter) (b : PacketBlock) :
    Except Fault PacketBlock :=
  match classifyLoop P q b 0 b.readRequest.PacketsSuccess with
  | .ok b1 => .ok { b1 with readRequest := { b1.readRequest with PacketsSuccess := 0 } }
  | .error e => .error e

/-! ## The adapter handle -/

/-- Modelled from the spec: `NetworkAdapter.GetAdapter`, the driver-level handle. -/
def NetworkAdapter.GetAdapter (na : NetworkAdapter) : Handle := na.handle

/-- Modelled from the spec: `NetworkAdapter.SetPacketEvent`, which registers the adapter's
notification event with the driver. `answer` is what the registration returns: an error,
or nothing when the event is registered. -/
def NetworkAdapter.SetPacketEvent (na : NetworkAdapter) (answer : Option Error) :
    NetworkAdapter × Option Error :=
  match answer with
  | some err => (na, some err)
  | none => ({ na with eventSet := true }, none)

/-- Modelled from the spec: `NetworkAdapter.SetMode`, which sets the adapter mode through
the driver. `answer` is what the mode-set request returns. -/
def NetworkAdapter.SetMode (na : NetworkAdapter) (flags : Nat) (answer : Option Error) :
    NetworkAdapter × Option Error :=
  match answer with
  | some err => (na, some err)
  | none => ({ na with mode := flags }, none)

/-- Modelled from the spec: `NetworkAdapter.Release`, which releases the adapter's session
resources, the event and the mode. -/
def NetworkAdapter.Release (na : NetworkAdapter) : NetworkAdapter :=
  { na with eventSet := false, mode := 0 }

/-- What the driver answers to the two requests `initFilter` makes. -/
structure StartEnv where
  packetEvent : Option Error
  setMode : Option Error
deriving DecidableEq, Repr

/-! ## Lifecycle of the controller -/

/-- The closure passed to `SetMode` in `initFilter`. -/
def tunnelMode (P : Config) (f : QueuedPacketFilter) : Nat :=
  let mode := 0
  let mode := if f.filterOutgoingPacket.isSome then mode ||| P.MSTCP_FLAG_SENT_TUNNEL else mode
  let mode := if f.filterIncomingPacket.isSome then mode ||| P.MSTCP_FLAG_RECV_TUNNEL else mode
  mode

/-- The first loop of `initFilter` with `n` iterations left: allocate a block for the
selected adapter and send it on the capture queue. -/
def seedPool (P : Config) : QueuedPacketFilter → Nat → Except Fault QueuedPacketFilter
  | f, 0 => .ok f
  | f, n + 1 =>
    match currentAdapter f with
    | .error e => .error e
    | .ok na =>
      match chanSend P f.packetReadChan (NewPacketBlock P na.GetAdapter) with
      | .error e => .error e
      | .ok ch => seedPool P { f with packetReadChan := ch } n

/-- The method `initFilter`. -/
def initFilter (P : Config) (env : StartEnv) (f : QueuedPacketFilter) :
    Except Fault (QueuedPacketFilter × Option Error) :=
  match seedPool P f P.MaximumPacketBlock with
  | .error e => .error e
  | .ok f1 =>
    match currentAdapter f1 with
    | .error e => .error e
    | .ok na =>
      match na.SetPacketEvent env.packetEvent with
      | (na1, some err) =>
        .ok ({ setCurrentAdapter f1 na1 with packetReadChan := drainChan f1.packetReadChan },
             some err)
      | (na1, none) =>
        let f2 := setCurrentAdapter f1 na1
        -- the value `SetMode` returns is not looked at
        let (na2, _) := na1.SetMode (tunnelMode P f2) env.setMode
        .ok (setCurrentAdapter f2 na2, none)

/-- The method `StartFilter`. -/
def StartFilter (P : Config) (env : StartEnv) (f : QueuedPacketFilter) (adapterIdx : Int) :
    Except Fault (QueuedPacketFilter × Option Error) :=
  if f.filterState ≠ .Stopped then .ok (f, some "filter is not stopped")
  else
    let f := { f with filterState := .Starting }
    let f := { f with adapter := adapterIdx }
    match initFilter P env f with
    | .error e => .error e
    | .ok (f, some err) => .ok ({ f with filterState := .Stopped }, some err)
    | .ok (f, none) =>
      let f := { f with cancelFunc := some f.ctxMade, ctxMade := f.ctxMade + 1 }
      let f := { f with wg := f.wg + 4 }
      let f := { f with started := f.started ++
        [Stage.packetRead, Stage.packetProcess, Stage.packetWriteMstcp,
         Stage.packetWriteAdapter] }
      .ok ({ f with filterState := .Running }, none)

/-- The method `StopFilter`. -/
def StopFilter (f : QueuedPacketFilter) : QueuedPacketFilter × Option Error :=
  if f.filterState ≠ .Running then (f, some "filter is not running")
  else
    let f := { f with filterState := .Stopping }
    let f :=
      match f.cancelFunc with
      | some ctx => { f with ctxDone := ctx :: f.ctxDone }
      | none => f
    ({ f with filterState := .Stopped }, none)

/-- The method `ReleaseFilter`. -/
def ReleaseFilter (f : QueuedPacketFilter) : Except Fault QueuedPacketFilter :=
  match currentAdapter f with
  | .error e => .error e
  | .ok na =>
    let f := setCurrentAdapter f na.Release
    let f := { f with packetReadChan := drainChan f.packetReadChan }
    let f := { f with packetProcessChan := drainChan f.packetProcessChan }
    let f := { f with packetWriteMstcpChan := drainChan f.packetWriteMstcpChan }
    .ok { f with packetWriteAdapterChan := drainChan f.packetWriteAdapterChan }

/-- What the operating system answers during adapter enumeration: the friendly name
`ConvertWindows2000AdapterName` resolves for an internal name, and the error, if any, with
which `NewNetworkAdapter` refuses a handle. -/
structure EnumEnv where
  friendlyName : String → String
  newAdapterError : Handle → Option Error

/-- Modelled from the spec: `NewNetworkAdapter`, which is not among the sources: the
handle built for one discovered interface, with no session state yet. -/
def NewNetworkAdapter (env : EnumEnv) (adapterHandle : Handle) (currentAddress : List Nat)
    (name friendlyName : String) (medium mtu : Nat) : Except Error NetworkAdapter :=
  match env.newAdapterError adapterHandle with
  | some err => .error err
  | none => .ok ⟨adapterHandle, name, friendlyName, currentAddress, medium, mtu, false, 0⟩

/-- The loop of `initializeNetworkInterfaces` from index `i` with `n` iterations left. -/
def enumerateFrom (env : EnumEnv) :
    QueuedPacketFilter → Nat → Nat → Except Fault QueuedPacketFilter
  | f, _, 0 => .ok f
  | f, i, n + 1 =>
    match f.adapters.AdapterNameList[i]?, f.adapters.AdapterHandle[i]?,
        f.adapters.CurrentAddress[i]?, f.adapters.AdapterMediumList[i]?,
        f.adapters.MTU[i]? with
    | some name, some adapterHandle, some currentAddress, some medium, some mtu =>
      let friendlyName := env.friendlyName name
      match NewNetworkAdapter env adapterHandle currentAddress name friendlyName medium mtu with
      | .error _ => enumerateFrom env f (i + 1) n
      | .ok networkAdapter =>
        enumerateFrom env { f with networkInterfaces := f.networkInterfaces ++ [networkAdapter] }
          (i + 1) n
    | _, _, _, _, _ => .error .indexOutOfRange

/-- The method `initializeNetworkInterfaces`; the error it returns is always nil. -/
def initializeNetworkInterfaces (env : EnumEnv) (f : QueuedPacketFilter) :
    Except Fault (QueuedPacketFilter × Option Error) :=
  match enumerateFrom env f 0 f.adapters.AdapterCount with
  | .error e => .error e
  | .ok f => .ok (f, none)

/-- The method `Reconfigure`. -/
def Reconfigure (env : EnumEnv) (f : QueuedPacketFilter) :
    Except Fault (QueuedPacketFilter × Option Error) :=
  if f.filterState ≠ .Stopped then .ok (f, some "filter is not stopped")
  else
    let f := { f with networkInterfaces := [] }
    match initializeNetworkInterfaces env f with
    | .error e => .error e
    | .ok (f, some err) => .ok (f, some err)
    | .ok (f, none) => .ok (f, none)

/-- The constructor `NewQueuedPacketFilter`: a stopped controller over four empty
channels, with the adapters enumerated. -/
def NewQueuedPacketFilter (env : EnumEnv) (adapters : TcpAdapterList)
    (inbound outbound : Option PacketCallback) :
    Except Fault (Option QueuedPacketFilter × Option Error) :=
  let filter : QueuedPacketFilter :=
    { adapters := adapters
      filterIncomingPacket := inbound
      filterOutgoingPacket := outbound
      filterState := .Stopped
      networkInterfaces := []
      adapter := 0
      wg := 0
      cancelFunc := none
      ctxMade := 0
      ctxDone := []
      started := []
      packetReadChan := []
      packetProcessChan := []
      packetWriteMstcpChan := []
      packetWriteAdapterChan := [] }
  match initializeNetworkInterfaces env filter with
  | .error e => .error e
  | .ok (_, some err) => .ok (none, some err)
  | .ok (filter, none) => .ok (some filter, none)

/-- The method `GetFilterState`. -/
def GetFilterState (f : QueuedPacketFilter) : FilterState := f.filterState

/-! ## The capture stage and the two injection stages -/

/-- Modelled from the spec: `ReadPackets`, which is not among the sources. `delivered` is
what the driver holds for the adapter when the read is made. The batched read fills the
buffer array of the block from its first slot, up to capacity, records in `PacketsSuccess`
how many buffers it filled and returns true; a read that has no packet to report returns
false and leaves the block as it found it. -/
def ReadPackets (b : PacketBlock) (delivered : List IntermediateBuffer) : PacketBlock × Bool :=
  let taken := delivered.take b.packetBuffer.length
  if taken.length = 0 then (b, false)
  else
    ({ b with packetBuffer := taken ++ b.packetBuffer.drop taken.length,
              readRequest := { b.readRequest with PacketsSuccess := taken.length } }, true)

/-- The inner loop of `packetRead`, `for q.filterState == N.Running`, on the block the
stage holds: wait for the event, reset it, read, and leave the loop when the read returns
false. `reads` lists what the driver delivers at each successive read and `k` counts the
reads made so far. The result is the block as the loop leaves it, with the number of reads;
it is `none` when the deliveries listed run out with the loop still going, that is when the
stage is waiting for the next event. -/
def drainLoop (st : FilterState) : PacketBlock → List (List IntermediateBuffer) → Nat →
    Option (PacketBlock × Nat)
  | b, [], k => if st = .Running then none else some (b, k)
  | b, delivered :: rest, k =>
    if st = .Running then
      match ReadPackets b delivered with
      | (b1, true) => drainLoop st b1 rest (k + 1)
      | (b1, false) => some (b1, k + 1)
    else some (b, k)

/-- What `packetWriteMstcp` does to the block it took: a non-empty write-to-stack batch is
handed to `SendPacketsToMstcp`, whose result is not looked at, and its count is reset. -/
def flushMstcp (b : PacketBlock) : PacketBlock :=
  if b.writeMstcpRequest.PacketsNumber > 0 then
    { b with writeMstcpRequest := { b.writeMstcpRequest with PacketsNumber := 0 } }
  else b

/-- What `packetWriteAdapter` does to the block it took: a non-empty write-to-wire batch
is handed to `SendPacketsToAdapter`, whose result is not looked at, and its count is
reset. -/
def flushAdapter (b : PacketBlock) : PacketBlock :=
  if b.writeAdapterRequest.PacketsNumber > 0 then
    { b with writeAdapterRequest := { b.writeAdapterRequest with PacketsNumber := 0 } }
  else b

/-! ## The worker goroutines

`StopFilter` cancels the context and returns; it does not wait for the goroutines, and the
channels made by the constructor serve every session. The goroutines of an earlier session
are therefore still part of the process when `StartFilter` runs again. -/

/-- Where a worker stands in the loop of its method. -/
inductive Position where
  /-- Started by a `go` statement; its first test is still to come. -/
  | launched
  /-- Back at the head of the loop after a send. -/
  | loopHead
  /-- Past the tests, at the receive from its input queue. -/
  | receiving
  /-- Past its receive, with the block in `packetBlock` and its work on the block still to
  do; for the capture stage, at the test of its inner loop. -/
  | holding (packetBlock : PacketBlock)
  /-- Its work on the block done, at the send on its output queue. -/
  | sending (packetBlock : PacketBlock)
  /-- Out of the loop: the method has returned and `wg.Done` has run. -/
  | returned
deriving DecidableEq, Repr

/-- A worker goroutine: the method it runs, the context it was given, and its place. -/
structure Worker where
  stage : Stage
  ctx : Nat
  position : Position
deriving DecidableEq, Repr

/-- The process: the controller and every worker goroutine launched so far. -/
structure Pipeline where
  f : QueuedPacketFilter
  workers : List Worker

/-- The queue a stage receives from. -/
def inputChan (f : QueuedPacketFilter) : Stage → List PacketBlock
  | .packetRead => f.packetReadChan
  | .packetProcess => f.packetProcessChan
  | .packetWriteMstcp => f.packetWriteMstcpChan
  | .packetWriteAdapter => f.packetWriteAdapterChan

/-- The controller with the queue a stage receives from replaced. -/
def setInputChan (f : QueuedPacketFilter) (ch : List PacketBlock) : Stage → QueuedPacketFilter
  | .packetRead => { f with packetReadChan := ch }
  | .packetProcess => { f with packetProcessChan := ch }
  | .packetWriteMstcp => { f with packetWriteMstcpChan := ch }
  | .packetWriteAdapter => { f with packetWriteAdapterChan := ch }

/-- The queue a stage sends on. -/
def outputChan (f : QueuedPacketFilter) : Stage → List PacketBlock
  | .packetRead => f.packetProcessChan
  | .packetProcess => f.packetWriteMstcpChan
  | .packetWriteMstcp => f.packetWriteAdapterChan
  | .packetWriteAdapter => f.packetReadChan

/-- The controller with the queue a stage sends on replaced. -/
def setOutputChan (f : QueuedPacketFilter) (ch : List PacketBlock) : Stage → QueuedPacketFilter
  | .packetRead => { f with packetProcessChan := ch }
  | .packetProcess => { f with packetWriteMstcpChan := ch }
  | .packetWriteMstcp => { f with packetWriteAdapterChan := ch }
  | .packetWriteAdapter => { f with packetReadChan := ch }

/-- What a stage does to the block it holds, between its receive and its send, when that
work is made in one go with the filter state as it is now. `reads` is what the driver
delivers at the reads the capture stage makes. The result is `none` when the work does not
come to its end: the capture stage is still waiting for an event, or the classify stage
panics. -/
def stageWork (P : Config) (f : QueuedPacketFilter) (reads : List (List IntermediateBuffer)) :
    Stage → PacketBlock → Option PacketBlock
  | .packetRead, b =>
    match drainLoop f.filterState b reads 0 with
    | some (b1, _) => some b1
    | none => none
  | .packetProcess, b =>
    match classifyBlock P f b with
    | .ok b1 => some b1
    | .error _ => none
  | .packetWriteMstcp, b => some (flushMstcp b)
  | .packetWriteAdapter, b => some (flushAdapter b)

/-- The steps of the workers; `i` is the place of the worker in the list of workers. -/
inductive Action where
  /-- The head of the loop: the `select` on the context and the test of the filter state. -/
  | test (i : Nat)
  /-- The first test of a worker just launched, made before `StartFilter` has stored
  `Running` (the `go` statements come before that assignment): it finds the state
  `Starting`. -/
  | testWhileStarting (i : Nat)
  /-- The receive from the input queue. -/
  | receive (i : Nat)
  /-- One turn of the inner loop of `packetRead`: the test of the filter state and, when it
  is `Running`, the wait, the reset and one read, at which the driver delivers
  `delivered`. -/
  | drain (i : Nat) (delivered : List IntermediateBuffer)
  /-- The send on the output queue, preceded by whatever work on the block is still to do,
  made in one go; `reads` is what the driver delivers at the reads the capture stage then
  makes. -/
  | send (i : Nat) (reads : List (List IntermediateBuffer))

/-- The worker at place `i` moved to `position`. -/
def moveWorker (s : Pipeline) (i : Nat) (w : Worker) (position : Position) : List Worker :=
  s.workers.set i { w with position := position }

/-- One step of one worker; `none` when the step cannot be taken in this state (the worker
is elsewhere in its loop, its receive finds the queue empty, its send finds the queue
full, or its work on the block does not come to its end). -/
def step (P : Config) (s : Pipeline) : Action → Option Pipeline
  | .test i =>
    match s.workers[i]? with
    | none => none
    | some w =>
      match w.position with
      | .holding _ => none
      | .sending _ => none
      | .receiving => none
      | .returned => none
      | _ =>
        if w.ctx ∈ s.f.ctxDone then
          some ⟨{ s.f with wg := s.f.wg - 1 }, moveWorker s i w .returned⟩
        else if s.f.filterState ≠ .Running then
          some ⟨{ s.f with wg := s.f.wg - 1 }, moveWorker s i w .returned⟩
        else some ⟨s.f, moveWorker s i w .receiving⟩
  | .testWhileStarting i =>
    match s.workers[i]? with
    | none => none
    | some w =>
      match w.position with
      | .launched => some ⟨{ s.f with wg := s.f.wg - 1 }, moveWorker s i w .returned⟩
      | _ => none
  | .receive i =>
    match s.workers[i]? with
    | none => none
    | some w =>
      match w.position, inputChan s.f w.stage with
      | .receiving, b :: rest =>
        some ⟨setInputChan s.f rest w.stage, moveWorker s i w (.holding b)⟩
      | _, _ => none
  | .drain i delivered =>
    match s.workers[i]? with
    | none => none
    | some w =>
      match w.stage, w.position with
      | .packetRead, .holding b =>
        if s.f.filterState = .Running then
          match ReadPackets b delivered with
          | (b1, true) => some ⟨s.f, moveWorker s i w (.holding b1)⟩
          | (b1, false) => some ⟨s.f, moveWorker s i w (.sending b1)⟩
        else some ⟨s.f, moveWorker s i w (.sending b)⟩
      | _, _ => none
  | .send i reads =>
    match s.workers[i]? with
    | none => none
    | some w =>
      match w.position with
      | .holding b =>
        match stageWork P s.f reads w.stage b with
        | none => none
        | some b1 =>
          match chanSend P (outputChan s.f w.stage) b1 with
          | .ok ch => some ⟨setOutputChan s.f ch w.stage, moveWorker s i w .loopHead⟩
          | .error _ => none
      | .sending b =>
        match chanSend P (outputChan s.f w.stage) b with
        | .ok ch => some ⟨setOutputChan s.f ch w.stage, moveWorker s i w .loopHead⟩
        | .error _ => none
      | _ => none

/-- An interleaving of worker steps, taken one after the other. -/
def run (P : Config) : Pipeline → List Action → Option Pipeline
  | s, [] => some s
  | s, a :: rest =>
    match step P s a with
    | some s1 => run P s1 rest
    | none => none

/-- The four goroutines of the `go` statements of `StartFilter`, with the context just
made. -/
def launch (ctx : Nat) : List Worker :=
  [⟨.packetRead, ctx, .launched⟩, ⟨.packetProcess, ctx, .launched⟩,
   ⟨.packetWriteMstcp, ctx, .launched⟩, ⟨.packetWriteAdapter, ctx, .launched⟩]

/-- The call `StartFilter` in the process: when it succeeds, the four goroutines it
launches join the workers already there. -/
def Pipeline.StartFilter (P : Config) (env : StartEnv) (s : Pipeline) (adapterIdx : Int) :
    Except Fault (Pipeline × Option Error) :=
  match NdisApi.StartFilter P env s.f adapterIdx with
  | .error e => .error e
  | .ok (f, some err) => .ok (⟨f, s.workers⟩, some err)
  | .ok (f, none) => .ok (⟨f, s.workers ++ launch s.f.ctxMade⟩, none)

/-- The call `StopFilter` in the process: no worker is waited for. -/
def Pipeline.StopFilter (s : Pipeline) : Pipeline × Option Error :=
  (⟨(NdisApi.StopFilter s.f).1, s.workers⟩, (NdisApi.StopFilter s.f).2)

/-- The call `ReleaseFilter` in the process: the queues are emptied, the workers keep the
blocks they hold. -/
def Pipeline.ReleaseFilter (s : Pipeline) : Except Fault Pipeline :=
  match NdisApi.ReleaseFilter s.f with
  | .ok f => .ok ⟨f, s.workers⟩
  | .error e => .error e

/-- The number of blocks in the four queues. -/
def queued (f : QueuedPacketFilter) : Nat :=
  f.packetReadChan.length + f.packetProcessChan.length +
    f.packetWriteMstcpChan.length + f.packetWriteAdapterChan.length

/-- Whether a worker holds a block. -/
def Worker.holds (w : Worker) : Bool :=
  match w.position with
  | .holding _ => true
  | .sending _ => true
  | _ => false

/-- Whether a worker waits in its receive. -/
def Worker.waits (w : Worker) : Bool :=
  match w.position with
  | .receiving => true
  | _ => false

/-- The number of blocks held by the workers, those of earlier sessions included. -/
def held (s : Pipeline) : Nat :=
  s.workers.countP Worker.holds

/-- Whether no worker holds a block or waits in a receive: every worker has returned or
stands at the head of its loop. -/
def quiet (s : Pipeline) : Bool :=
  s.workers.all fun w => !(w.holds || w.waits)

/-- What no worker step changes in the controller. -/
def sameControl (f f1 : QueuedPacketFilter) : Prop :=
  f1.filterState = f.filterState ∧ f1.networkInterfaces = f.networkInterfaces ∧
    f1.adapter = f.adapter ∧ f1.ctxDone = f.ctxDone ∧ f1.ctxMade = f.ctxMade

/-! ## The adapter mode requests of `ndisapi_adapter.go` -/

/-- The structure `AdapterMode`. -/
structure AdapterMode where
  AdapterHandle : Handle
  Flags : Nat
deriving DecidableEq, Repr

/-- The two control codes of the driver that concern the adapter mode. -/
inductive ControlCode where
  | IOCTL_NDISRD_SET_ADAPTER_MODE
  | IOCTL_NDISRD_GET_ADAPTER_MODE
deriving DecidableEq, Repr

/-- The driver behind `DeviceIoControl`: the filter mode it keeps for each adapter handle
and the control requests it has received, oldest first. -/
structure Driver where
  mode : Handle → Nat
  requests : List ControlCode

/-- Modelled from the spec: `DeviceIoControl` on the two mode requests; the method and the
driver behind it are not among the sources. The set request stores the flags of the input
structure as the mode of its handle and writes no output; the get request writes the mode
the driver keeps for the handle into the output structure, when one is given, and changes
no mode. The result is the driver afterwards, the output structure afterwards, and the
error returned. -/
def DeviceIoControl (a : Driver) (service : ControlCode) (input : AdapterMode)
    (output : Option AdapterMode) : Driver × Option AdapterMode × Option Error :=
  match service with
  | .IOCTL_NDISRD_SET_ADAPTER_MODE =>
    ({ mode := fun h => if h = input.AdapterHandle then input.Flags else a.mode h,
       requests := a.requests ++ [service] }, output, none)
  | .IOCTL_NDISRD_GET_ADAPTER_MODE =>
    ({ a with requests := a.requests ++ [service] },
     output.map fun out => { out with AdapterHandle := input.AdapterHandle,
                                      Flags := a.mode input.AdapterHandle }, none)

/-- The method `SetAdapterMode`: the request is sent with `currentMode` as input and no
output buffer. The result is the driver, `currentMode` after the call, and the error. -/
def SetAdapterMode (a : Driver) (currentMode : AdapterMode) :
    Driver × AdapterMode × Option Error :=
  match DeviceIoControl a .IOCTL_NDISRD_SET_ADAPTER_MODE currentMode none with
  | (a1, _, err) => (a1, currentMode, err)

/-- The method `GetAdapterMode`: the request is sent with `currentMode` as input and as
output buffer. The result is the driver, `currentMode` after the call, and the error. -/
def GetAdapterMode (a : Driver) (currentMode : AdapterMode) :
    Driver × AdapterMode × Option Error :=
  match DeviceIoControl a .IOCTL_NDISRD_SET_ADAPTER_MODE currentMode (some currentMode) with
  | (a1, some out, err) => (a1, out, err)
  | (a1, none, err) => (a1, currentMode, err)

/-! ## The classify stage in the words of the spec -/

/-- The verdict of a packet, in the words of the spec: the outbound callback decides for a
packet flagged sent and the inbound callback for any other, an absent callback counting as
verdict Pass. -/
def specVerdict (P : Config) (inbound outbound : Option PacketCallback) (h : Handle)
    (buf : IntermediateBuffer) : Nat :=
  match (if buf.DeviceFlags = P.PACKET_FLAG_ON_SEND then outbound else inbound) with
  | some cb => (cb h buf).1
  | none => P.FilterActionPass

/-- The spec's condition for the write-to-wire batch: sent with verdict Pass, or received
with verdict Redirect. -/
def specToWire (P : Config) (inbound outbound : Option PacketCallback) (h : Handle)
    (buf : IntermediateBuffer) : Bool :=
  decide (buf.DeviceFlags = P.PACKET_FLAG_ON_SEND ∧
      specVerdict P inbound outbound h buf = P.FilterActionPass) ||
    decide (buf.DeviceFlags = P.PACKET_FLAG_ON_RECEIVE ∧
      specVerdict P inbound outbound h buf = P.FilterActionRedirect)

/-- The spec's condition for the write-to-stack batch: received with verdict Pass, or sent
with verdict Redirect. -/
def specToStack (P : Config) (inbound outbound : Option PacketCallback) (h : Handle)
    (buf : IntermediateBuffer) : Bool :=
  decide (buf.DeviceFlags = P.PACKET_FLAG_ON_RECEIVE ∧
      specVerdict P inbound outbound h buf = P.FilterActionPass) ||
    decide (buf.DeviceFlags = P.PACKET_FLAG_ON_SEND ∧
      specVerdict P inbound outbound h buf = P.FilterActionRedirect)

/-- The test `test` at index `i` of the buffer array. -/
def testAt (bufs : List IntermediateBuffer) (test : IntermediateBuffer → Bool) (i : Nat) : Bool :=
  match bufs[i]? with
  | some buf => test buf
  | none => false

/-- The indices below `K`, in capture order, of the buffers that satisfy `test`, as the
buffer pointers a batch holds. -/
def selectPackets (bufs : List IntermediateBuffer) (K : Nat)
    (test : IntermediateBuffer → Bool) : List (Option Nat) :=
  ((List.range K).filter (testAt bufs test)).map some

/-- The branch of the loop body of `packetProcess` that writes to the write-to-wire
request, as a test on the captured buffer: the verdict is Pass and the buffer is flagged
sent after the call, or the verdict is Redirect and the buffer is flagged received after
the call. -/
def goesToWire (P : Config) (q : QueuedPacketFilter) (h : Handle)
    (buf : IntermediateBuffer) : Bool :=
  if (packetAction P q h buf).1 = P.FilterActionPass then
    decide ((packetAction P q h buf).2.DeviceFlags = P.PACKET_FLAG_ON_SEND)
  else if (packetAction P q h buf).1 = P.FilterActionRedirect then
    decide ((packetAction P q h buf).2.DeviceFlags = P.PACKET_FLAG_ON_RECEIVE)
  else false

/-- The branch of the loop body of `packetProcess` that writes to the write-to-stack
request, as a test on the captured buffer. -/
def goesToStack (P : Config) (q : QueuedPacketFilter) (h : Handle)
    (buf : IntermediateBuffer) : Bool :=
  if (packetAction P q h buf).1 = P.FilterActionPass then
    !decide ((packetAction P q h buf).2.DeviceFlags = P.PACKET_FLAG_ON_SEND)
  else if (packetAction P q h buf).1 = P.FilterActionRedirect then
    !decide ((packetAction P q h buf).2.DeviceFlags = P.PACKET_FLAG_ON_RECEIVE)
  else false

/-- Request `r1` is request `r` with the pointers to the buffers `l` appended to its
batch. -/
def Grown (r r1 : EtherMultiRequest) (l : List Nat) : Prop :=
  r1.EthernetPackets.length = r.EthernetPackets.length ∧
  r1.PacketsNumber = r.PacketsNumber + l.length ∧
  r1.batch = r.batch ++ l.map some

/-! ## Sample data

Concrete controllers, blocks and processes on which the definitions are evaluated. -/

/-- A callback that takes its verdict from the first byte of the packet, modulo three, and
leaves the packet as it is. -/
def verdictFromPacket : PacketCallback := fun _ buf => (buf.Buffer.headD 0 % 3, buf)

/-- An adapter with handle 7 and no session state. -/
def sampleAdapter : NetworkAdapter := ⟨7, "eth0", "Ethernet", [], 0, 1500, false, 0⟩

/-- A stopped controller over one adapter, with both callbacks present and empty queues. -/
def sampleFilter : QueuedPacketFilter where
  adapters := ⟨0, [], [], [], [], []⟩
  filterIncomingPacket := some verdictFromPacket
  filterOutgoingPacket := some verdictFromPacket
  filterState := .Stopped
  networkInterfaces := [sampleAdapter]
  adapter := 0
  wg := 0
  cancelFunc := none
  ctxMade := 0
  ctxDone := []
  started := []
  packetReadChan := []
  packetProcessChan := []
  packetWriteMstcpChan := []
  packetWriteAdapterChan := []

/-- A block of capacity four holding four captured packets: sent with verdict Pass,
received with verdict Redirect, sent with verdict Drop, received with verdict Pass. -/
def sampleBlock : PacketBlock where
  packetBuffer := [⟨1, [0]⟩, ⟨2, [2]⟩, ⟨1, [1]⟩, ⟨2, [0]⟩]
  readRequest := ⟨7, 4, 4, [some 0, some 1, some 2, some 3]⟩
  writeAdapterRequest := ⟨7, 0, 0, [none, none, none, none]⟩
  writeMstcpRequest := ⟨7, 0, 0, [none, none, none, none]⟩

/-- A controller whose callbacks both return Pass for every packet and leave it as it is. -/
def passFilter : QueuedPacketFilter :=
  { sampleFilter with
    filterIncomingPacket := some fun _ buf => (sampleConfig.FilterActionPass, buf)
    filterOutgoingPacket := some fun _ buf => (sampleConfig.FilterActionPass, buf) }

/-- A controller whose callbacks both return Redirect for every packet and leave it as it
is. -/
def redirectFilter : QueuedPacketFilter :=
  { sampleFilter with
    filterIncomingPacket := some fun _ buf => (sampleConfig.FilterActionRedirect, buf)
    filterOutgoingPacket := some fun _ buf => (sampleConfig.FilterActionRedirect, buf) }

/-- A block of capacity one holding one captured packet whose device flags are zero,
neither the sent flag nor the received flag. -/
def unflaggedBlock : PacketBlock where
  packetBuffer := [⟨0, []⟩]
  readRequest := ⟨7, 1, 1, [some 0]⟩
  writeAdapterRequest := ⟨7, 0, 0, [none]⟩
  writeMstcpRequest := ⟨7, 0, 0, [none]⟩

/-- A controller whose outbound callback rewrites the device flags of the packet to the
received flag and returns Pass; it has no inbound callback. -/
def rewritingFilter : QueuedPacketFilter :=
  { sampleFilter with
    filterIncomingPacket := none
    filterOutgoingPacket := some fun _ buf =>
      (sampleConfig.FilterActionPass,
        { buf with DeviceFlags := sampleConfig.PACKET_FLAG_ON_RECEIVE }) }

/-- A block of capacity one holding one captured packet flagged sent. -/
def sentBlock : PacketBlock where
  packetBuffer := [⟨1, []⟩]
  readRequest := ⟨7, 1, 1, [some 0]⟩
  writeAdapterRequest := ⟨7, 0, 0, [none]⟩
  writeMstcpRequest := ⟨7, 0, 0, [none]⟩

/-- The two batches of a classified block, write-to-wire first. -/
def batchesOf (r : Except Fault PacketBlock) : Option (List (Option Nat) × List (Option Nat)) :=
  match r with
  | .ok b => some (b.writeAdapterRequest.batch, b.writeMstcpRequest.batch)
  | .error _ => none

/-- An enumeration environment in which every name resolves to itself and every adapter is
accepted. -/
def sampleEnum : EnumEnv := ⟨fun name => name, fun _ => none⟩

/-- The sample controller in state `Running`. -/
def runningFilter : QueuedPacketFilter := { sampleFilter with filterState := .Running }

/-- What a call of StartFilter returned, for display: the error, the filter state, the
number of blocks on the capture queue and the goroutines launched; `none` when the call
does not return. -/
def startOutcome (r : Except Fault (QueuedPacketFilter × Option Error)) :
    Option (Option Error × FilterState × Nat × List Stage) :=
  match r with
  | .ok (f, err) => some (err, f.filterState, f.packetReadChan.length, f.started)
  | .error _ => none

/-- A driver that keeps mode zero for every adapter and has received no request. -/
def freshDriver : Driver := ⟨fun _ => 0, []⟩

/-- The driver after `SetAdapterMode` has set the mode of adapter 7 to the flags 3. -/
def driverAfterSet : Driver := (SetAdapterMode freshDriver ⟨7, 3⟩).1

/-- A process with the sample controller and no worker yet. -/
def freshProcess : Pipeline := ⟨sampleFilter, []⟩

/-- The process after StartFilter on `freshProcess`, the driver accepting both requests. -/
def firstSession : Pipeline :=
  match Pipeline.StartFilter sampleConfig ⟨none, none⟩ freshProcess 0 with
  | .ok (s, _) => s
  | .error _ => freshProcess

/-- An interleaving of worker steps: the capture worker passes its test, takes a block,
reads two packets and then nothing, and sends the block on; the classify worker passes its
test, takes the block, classifies it and sends it on; the stack-injection worker passes its
test and takes it; the capture worker passes its test again and takes a second block. -/
def sampleActions : List Action :=
  [.test 0, .receive 0, .send 0 [[⟨1, [0]⟩, ⟨2, [2]⟩], []], .test 1, .receive 1, .send 1 [],
   .test 2, .receive 2, .test 0, .receive 0]

/-- The process after `sampleActions`. -/
def sampleState : Pipeline :=
  match run sampleConfig firstSession sampleActions with
  | some s => s
  | none => firstSession

/-- The steps by which the capture worker passes its test and takes a block. -/
def captureTakes : List Action := [.test 0, .receive 0]

/-- The process after the capture worker has taken its first block. -/
def captureHolding : Pipeline :=
  match run sampleConfig firstSession captureTakes with
  | some s => s
  | none => firstSession

/-- The process `captureHolding` after StopFilter and then ReleaseFilter: the four queues
are empty and the capture worker of the first session still holds its block. -/
def releasedHolding : Pipeline :=
  match Pipeline.ReleaseFilter (Pipeline.StopFilter captureHolding).1 with
  | .ok s => s
  | .error _ => captureHolding

/-- The process after StartFilter on `releasedHolding`. -/
def secondSession : Pipeline :=
  match Pipeline.StartFilter sampleConfig ⟨none, none⟩ releasedHolding 0 with
  | .ok (s, _) => s
  | .error _ => releasedHolding

/-- After StopFilter on `captureHolding`: the capture worker sends its block on and finds
its context done, and the three other workers find theirs done at their first test. -/
def windDown : List Action := [.send 0 [], .test 0, .test 1, .test 2, .test 3]

/-- The process `captureHolding` after StopFilter and the steps `windDown`. -/
def woundDown : Pipeline :=
  match run sampleConfig (Pipeline.StopFilter captureHolding).1 windDown with
  | some s => s
  | none => captureHolding

/-- What a call of StartFilter in the process came to: `none` when it returned, the fault
when it did not. -/
def startFault (r : Except Fault (Pipeline × Option Error)) : Option Fault :=
  match r with
  | .ok _ => none
  | .error e => some e

/-- Four packets, as many as a block of capacity four holds. -/
def fourPackets : List IntermediateBuffer := [⟨1, [0]⟩, ⟨2, [0]⟩, ⟨1, [0]⟩, ⟨2, [0]⟩]

/-- What the drain loop left, for display: the number of reads made, the read-success
count of the block and the first buffer of the block; `none` while the loop is going. -/
def drainOutcome (r : Option (PacketBlock × Nat)) :
    Option (Nat × Nat × Option IntermediateBuffer) :=
  match r with
  | some (b, k) => some (k, b.readRequest.PacketsSuccess, b.packetBuffer.head?)
  | none => none

/-! ## Properties of the classify stage -/

/-- Writing slot `n` and taking `n + 1` slots appends the written value to the first `n`. -/
theorem take_set_succ {α : Type} (l : List α) (n : Nat) (x : α) (h : n < l.length) :
    (l.set n x).take (n + 1) = l.take n ++ [x] := by
  induction l generalizing n with
  | nil => simp at h
  | cons a t ih =>
    cases n with
    | zero => simp
    | succ m =>
      simp only [List.length_cons, Nat.add_lt_add_iff_right] at h
      simp [ih m h]

theorem Grown.refl (r : EtherMultiRequest) : Grown r r [] := by
  simp [Grown]

theorem Grown.trans {r r1 r2 : EtherMultiRequest} {l1 l2 : List Nat}
    (h1 : Grown r r1 l1) (h2 : Grown r1 r2 l2) : Grown r r2 (l1 ++ l2) := by
  obtain ⟨a1, b1, c1⟩ := h1
  obtain ⟨a2, b2, c2⟩ := h2
  refine ⟨by omega, by simp only [List.length_append]; omega, ?_⟩
  rw [c2, c1]; simp

theorem appendPacket_grown (r : EtherMultiRequest) (i : Nat)
    (h : r.PacketsNumber < r.EthernetPackets.length) :
    ∃ r1, appendPacket r i = .ok r1 ∧ Grown r r1 [i] := by
  refine ⟨_, by rw [appendPacket, if_pos h], ?_⟩
  refine ⟨by simp, by simp, ?_⟩
  simp only [EtherMultiRequest.batch, List.map_cons, List.map_nil]
  exact take_set_succ _ _ _ h

theorem classifyPacket_grown (P : Config) (q : QueuedPacketFilter) (b : PacketBlock) (i : Nat)
    (buf : IntermediateBuffer) (hbuf : b.packetBuffer[i]? = some buf)
    (hA : b.writeAdapterRequest.PacketsNumber < b.writeAdapterRequest.EthernetPackets.length)
    (hM : b.writeMstcpRequest.PacketsNumber < b.writeMstcpRequest.EthernetPackets.length) :
    ∃ b1, classifyPacket P q b i = .ok b1 ∧
      b1.packetBuffer = b.packetBuffer.set i (packetAction P q b.readRequest.AdapterHandle buf).2 ∧
      b1.readRequest = b.readRequest ∧
      Grown b.writeAdapterRequest b1.writeAdapterRequest
        (if goesToWire P q b.readRequest.AdapterHandle buf then [i] else []) ∧
      Grown b.writeMstcpRequest b1.writeMstcpRequest
        (if goesToStack P q b.readRequest.AdapterHandle buf then [i] else []) := by
  obtain ⟨rA, hrA, gA⟩ := appendPacket_grown b.writeAdapterRequest i hA
  obtain ⟨rM, hrM, gM⟩ := appendPacket_grown b.writeMstcpRequest i hM
  unfold classifyPacket goesToWire goesToStack
  simp only [hbuf]
  by_cases hp : (packetAction P q b.readRequest.AdapterHandle buf).1 = P.FilterActionPass
  · by_cases hs : (packetAction P q b.readRequest.AdapterHandle buf).2.DeviceFlags
        = P.PACKET_FLAG_ON_SEND
    · simp only [if_pos hp, if_pos hs, hrA, Except.map]
      exact ⟨_, rfl, rfl, rfl, by simpa [hs] using gA, by simpa [hs] using Grown.refl _⟩
    · simp only [if_pos hp, if_neg hs, hrM, Except.map]
      exact ⟨_, rfl, rfl, rfl, by simpa [hs] using Grown.refl _, by simpa [hs] using gM⟩
  · by_cases hr : (packetAction P q b.readRequest.AdapterHandle buf).1 = P.FilterActionRedirect
    · by_cases hs : (packetAction P q b.readRequest.AdapterHandle buf).2.DeviceFlags
          = P.PACKET_FLAG_ON_RECEIVE
      · simp only [if_neg hp, if_pos hr, if_pos hs, hrA, Except.map]
        exact ⟨_, rfl, rfl, rfl, by simpa [hs] using gA, by simpa [hs] using Grown.refl _⟩
      · simp only [if_neg hp, if_pos hr, if_neg hs, hrM, Except.map]
        exact ⟨_, rfl, rfl, rfl, by simpa [hs] using Grown.refl _, by simpa [hs] using gM⟩
    · simp only [if_neg hp, if_neg hr]
      exact ⟨_, rfl, rfl, rfl, by simpa using Grown.refl _, by simpa using Grown.refl _⟩

theorem filter_testAt_set (bufs : List IntermediateBuffer) (i n : Nat) (x : IntermediateBuffer)
    (t : IntermediateBuffer → Bool) :
    (List.range' (i + 1) n).filter (testAt (bufs.set i x) t)
      = (List.range' (i + 1) n).filter (testAt bufs t) := by
  apply List.filter_congr
  intro j hj
  rw [List.mem_range'_1] at hj
  unfold testAt
  rw [List.getElem?_set_ne (by omega)]

theorem classifyLoop_grown (P : Config) (q : QueuedPacketFilter) (n : Nat) :
    ∀ (b : PacketBlock) (i : Nat), i + n ≤ b.packetBuffer.length →
      b.writeAdapterRequest.PacketsNumber + n ≤ b.writeAdapterRequest.EthernetPackets.length →
      b.writeMstcpRequest.PacketsNumber + n ≤ b.writeMstcpRequest.EthernetPackets.length →
      ∃ b1, classifyLoop P q b i n = .ok b1 ∧
        b1.packetBuffer.length = b.packetBuffer.length ∧
        b1.readRequest = b.readRequest ∧
        Grown b.writeAdapterRequest b1.writeAdapterRequest
          ((List.range' i n).filter
            (testAt b.packetBuffer (goesToWire P q b.readRequest.AdapterHandle))) ∧
        Grown b.writeMstcpRequest b1.writeMstcpRequest
          ((List.range' i n).filter
            (testAt b.packetBuffer (goesToStack P q b.readRequest.AdapterHandle))) := by
  induction n with
  | zero =>
    intro b i _ _ _
    exact ⟨b, rfl, rfl, rfl, by simpa using Grown.refl _, by simpa using Grown.refl _⟩
  | succ n ih =>
    intro b i hb hA hM
    have hi : i < b.packetBuffer.length := by omega
    have hbuf : b.packetBuffer[i]? = some b.packetBuffer[i] := List.getElem?_eq_getElem hi
    obtain ⟨b1, h1, hpb, hrr, gA, gM⟩ :=
      classifyPacket_grown P q b i _ hbuf (by omega) (by omega)
    obtain ⟨b2, h2, hpb2, hrr2, gA2, gM2⟩ := ih b1 (i + 1)
      (by rw [hpb, List.length_set]; omega) (by rw [gA.1, gA.2.1]; split <;> simp <;> omega)
      (by rw [gM.1, gM.2.1]; split <;> simp <;> omega)
    refine ⟨b2, ?_, by rw [hpb2, hpb, List.length_set], by rw [hrr2, hrr], ?_, ?_⟩
    · simp only [classifyLoop, h1, h2]
    · rw [hpb, hrr, filter_testAt_set] at gA2
      have := Grown.trans gA gA2
      rw [List.range'_succ, List.filter_cons]
      simp only [testAt, hbuf] at this ⊢
      split <;> simp_all
    · rw [hpb, hrr, filter_testAt_set] at gM2
      have := Grown.trans gM gM2
      rw [List.range'_succ, List.filter_cons]
      simp only [testAt, hbuf] at this ⊢
      split <;> simp_all

theorem classifyBlock_batches (P : Config) (q : QueuedPacketFilter) (b : PacketBlock)
    (hK : b.readRequest.PacketsSuccess ≤ b.packetBuffer.length)
    (hcA : b.readRequest.PacketsSuccess ≤ b.writeAdapterRequest.EthernetPackets.length)
    (hcM : b.readRequest.PacketsSuccess ≤ b.writeMstcpRequest.EthernetPackets.length)
    (hA : b.writeAdapterRequest.PacketsNumber = 0)
    (hM : b.writeMstcpRequest.PacketsNumber = 0) :
    ∃ b1, classifyBlock P q b = .ok b1 ∧
      b1.readRequest.PacketsSuccess = 0 ∧
      b1.writeAdapterRequest.batch = selectPackets b.packetBuffer b.readRequest.PacketsSuccess
        (goesToWire P q b.readRequest.AdapterHandle) ∧
      b1.writeMstcpRequest.batch = selectPackets b.packetBuffer b.readRequest.PacketsSuccess
        (goesToStack P q b.readRequest.AdapterHandle) ∧
      b1.writeAdapterRequest.PacketsNumber = (selectPackets b.packetBuffer
        b.readRequest.PacketsSuccess (goesToWire P q b.readRequest.AdapterHandle)).length ∧
      b1.writeMstcpRequest.PacketsNumber = (selectPackets b.packetBuffer
        b.readRequest.PacketsSuccess (goesToStack P q b.readRequest.AdapterHandle)).length := by
  obtain ⟨b1, h1, _, _, gA, gM⟩ := classifyLoop_grown P q b.readRequest.PacketsSuccess b 0
    (by omega) (by omega) (by omega)
  refine ⟨{ b1 with readRequest := { b1.readRequest with PacketsSuccess := 0 } },
    by simp only [classifyBlock, h1], rfl, ?_, ?_, ?_, ?_⟩
  · have := gA.2.2
    simpa [selectPackets, List.range_eq_range', EtherMultiRequest.batch, hA] using this
  · have := gM.2.2
    simpa [selectPackets, List.range_eq_range', EtherMultiRequest.batch, hM] using this
  · have := gA.2.1
    simpa [selectPackets, List.range_eq_range', hA] using this
  · have := gM.2.1
    simpa [selectPackets, List.range_eq_range', hM] using this

theorem packetAction_verdict (P : Config) (q : QueuedPacketFilter) (h : Handle)
    (buf : IntermediateBuffer) :
    (packetAction P q h buf).1
      = specVerdict P q.filterIncomingPacket q.filterOutgoingPacket h buf := by
  unfold packetAction specVerdict
  split <;> split <;> simp_all

theorem goesToWire_eq_spec (P : Config) (hP : P.Distinct) (q : QueuedPacketFilter) (h : Handle)
    (buf : IntermediateBuffer)
    (hf : buf.DeviceFlags = P.PACKET_FLAG_ON_SEND ∨ buf.DeviceFlags = P.PACKET_FLAG_ON_RECEIVE)
    (hk : (packetAction P q h buf).2.DeviceFlags = buf.DeviceFlags) :
    goesToWire P q h buf = specToWire P q.filterIncomingPacket q.filterOutgoingPacket h buf := by
  obtain ⟨hsr, hpr, _, _⟩ := hP
  unfold goesToWire specToWire
  rw [hk, packetAction_verdict]
  rcases hf with hf | hf
  · by_cases hv : specVerdict P q.filterIncomingPacket q.filterOutgoingPacket h buf
        = P.FilterActionPass
    · simp [hv, hf]
    · simp [hv, hf, hsr]
  · have hrs : ¬ P.PACKET_FLAG_ON_RECEIVE = P.PACKET_FLAG_ON_SEND := fun e => hsr e.symm
    by_cases hv : specVerdict P q.filterIncomingPacket q.filterOutgoingPacket h buf
        = P.FilterActionPass
    · simp [hv, hf, hrs, hpr]
    · simp [hv, hf, hrs]

theorem goesToStack_eq_spec (P : Config) (hP : P.Distinct) (q : QueuedPacketFilter) (h : Handle)
    (buf : IntermediateBuffer)
    (hf : buf.DeviceFlags = P.PACKET_FLAG_ON_SEND ∨ buf.DeviceFlags = P.PACKET_FLAG_ON_RECEIVE)
    (hk : (packetAction P q h buf).2.DeviceFlags = buf.DeviceFlags) :
    goesToStack P q h buf = specToStack P q.filterIncomingPacket q.filterOutgoingPacket h buf := by
  obtain ⟨hsr, hpr, _, _⟩ := hP
  unfold goesToStack specToStack
  rw [hk, packetAction_verdict]
  rcases hf with hf | hf
  · by_cases hv : specVerdict P q.filterIncomingPacket q.filterOutgoingPacket h buf
        = P.FilterActionPass
    · simp [hv, hf, hsr, hpr]
    · simp [hv, hf, hsr]
  · have hrs : ¬ P.PACKET_FLAG_ON_RECEIVE = P.PACKET_FLAG_ON_SEND := fun e => hsr e.symm
    by_cases hv : specVerdict P q.filterIncomingPacket q.filterOutgoingPacket h buf
        = P.FilterActionPass
    · simp [hv, hf, hrs]
    · simp [hv, hf, hrs]

theorem selectPackets_congr (bufs : List IntermediateBuffer) (K : Nat)
    (t1 t2 : IntermediateBuffer → Bool)
    (h : ∀ i buf, i < K → bufs[i]? = some buf → t1 buf = t2 buf) :
    selectPackets bufs K t1 = selectPackets bufs K t2 := by
  unfold selectPackets
  congr 1
  apply List.filter_congr
  intro i hi
  rw [List.mem_range] at hi
  unfold testAt
  cases hb : bufs[i]? with
  | none => rfl
  | some buf => exact h i buf hi hb

theorem mem_selectPackets (bufs : List IntermediateBuffer) (K : Nat)
    (t : IntermediateBuffer → Bool) (i : Nat) :
    some i ∈ selectPackets bufs K t ↔ i < K ∧ ∃ buf, bufs[i]? = some buf ∧ t buf = true := by
  unfold selectPackets testAt
  simp only [List.mem_map, List.mem_filter, List.mem_range, Option.some.injEq]
  constructor
  · rintro ⟨j, ⟨hj, ht⟩, rfl⟩
    refine ⟨hj, ?_⟩
    cases hb : bufs[j]? with
    | none => simp [hb] at ht
    | some buf => exact ⟨buf, rfl, by simpa [hb] using ht⟩
  · rintro ⟨hi, buf, hb, ht⟩
    exact ⟨i, ⟨hi, by simpa [hb] using ht⟩, rfl⟩

theorem count_three (l : List Nat) (a b c : Nat → Bool)
    (h : ∀ i ∈ l, (if a i then 1 else 0) + (if b i then 1 else 0) + (if c i then 1 else 0) = 1) :
    (l.filter a).length + (l.filter b).length + (l.filter c).length = l.length := by
  induction l with
  | nil => rfl
  | cons x t ih =>
    have hx := h x (List.mem_cons_self x t)
    have ht := ih fun i hi => h i (List.mem_cons_of_mem x hi)
    simp only [List.filter_cons, List.length_cons]
    cases ha : a x <;> cases hb : b x <;> cases hc : c x <;> simp [ha, hb, hc] at hx ⊢ <;> omega

/-- C2 as stated fails. The sample block holds one packet flagged sent; the outbound
callback returns Pass and rewrites the device flags of the packet, through the pointer it
is handed, to the received flag. The reference partition puts the packet, sent with verdict
Pass, in the write-to-wire batch; the classify stage reads the flags again after the call
and puts it in the write-to-stack batch. -/
theorem classify_follows_rewritten_flag :
    batchesOf (classifyBlock sampleConfig rewritingFilter sentBlock) = some ([], [some 0]) ∧
      selectPackets sentBlock.packetBuffer sentBlock.readRequest.PacketsSuccess
        (specToWire sampleConfig rewritingFilter.filterIncomingPacket
          rewritingFilter.filterOutgoingPacket sentBlock.readRequest.AdapterHandle)
        = [some 0] ∧
      selectPackets sentBlock.packetBuffer sentBlock.readRequest.PacketsSuccess
        (specToStack sampleConfig rewritingFilter.filterIncomingPacket
          rewritingFilter.filterOutgoingPacket sentBlock.readRequest.AdapterHandle)
        = [] := by
  decide

/-- C2, amended. Classification equals the reference partition for callbacks that leave the
device flags as captured: for a block whose K captured packets fit its arrays, are each
flagged sent or received, and whose two write batches are empty on entry, and for any
inbound and outbound callbacks (an absent one counting as verdict Pass) such that the
callback consulted for a captured packet leaves its device flags as they were, the
classify stage returns, and afterwards the write-to-wire batch is the list, in capture
order, of the packets that are sent with verdict Pass or received with verdict Redirect,
the write-to-stack batch is the list, in capture order, of the packets that are received
with verdict Pass or sent with verdict Redirect, and a packet with verdict Drop is in
neither batch. -/
theorem classify_reference_partition (P : Config) (hP : P.Distinct) (q : QueuedPacketFilter)
    (b : PacketBlock)
    (hK : b.readRequest.PacketsSuccess ≤ b.packetBuffer.length)
    (hcA : b.readRequest.PacketsSuccess ≤ b.writeAdapterRequest.EthernetPackets.length)
    (hcM : b.readRequest.PacketsSuccess ≤ b.writeMstcpRequest.EthernetPackets.length)
    (hA : b.writeAdapterRequest.PacketsNumber = 0)
    (hM : b.writeMstcpRequest.PacketsNumber = 0)
    (hflags : ∀ i buf, i < b.readRequest.PacketsSuccess → b.packetBuffer[i]? = some buf →
      buf.DeviceFlags = P.PACKET_FLAG_ON_SEND ∨ buf.DeviceFlags = P.PACKET_FLAG_ON_RECEIVE)
    (hkeep : ∀ i buf, i < b.readRequest.PacketsSuccess → b.packetBuffer[i]? = some buf →
      (packetAction P q b.readRequest.AdapterHandle buf).2.DeviceFlags = buf.DeviceFlags) :
    ∃ b1, classifyBlock P q b = .ok b1 ∧
      b1.writeAdapterRequest.batch = selectPackets b.packetBuffer b.readRequest.PacketsSuccess
        (specToWire P q.filterIncomingPacket q.filterOutgoingPacket
          b.readRequest.AdapterHandle) ∧
      b1.writeMstcpRequest.batch = selectPackets b.packetBuffer b.readRequest.PacketsSuccess
        (specToStack P q.filterIncomingPacket q.filterOutgoingPacket
          b.readRequest.AdapterHandle) ∧
      ∀ i buf, i < b.readRequest.PacketsSuccess → b.packetBuffer[i]? = some buf →
        specVerdict P q.filterIncomingPacket q.filterOutgoingPacket
          b.readRequest.AdapterHandle buf = P.FilterActionDrop →
        some i ∉ b1.writeAdapterRequest.batch ∧ some i ∉ b1.writeMstcpRequest.batch := by
  obtain ⟨b1, h1, _, hw, hs, _, _⟩ := classifyBlock_batches P q b hK hcA hcM hA hM
  have hw2 := selectPackets_congr b.packetBuffer b.readRequest.PacketsSuccess _ _
    fun i buf hi hb => goesToWire_eq_spec P hP q b.readRequest.AdapterHandle buf
      (hflags i buf hi hb) (hkeep i buf hi hb)
  have hs2 := selectPackets_congr b.packetBuffer b.readRequest.PacketsSuccess _ _
    fun i buf hi hb => goesToStack_eq_spec P hP q b.readRequest.AdapterHandle buf
      (hflags i buf hi hb) (hkeep i buf hi hb)
  refine ⟨b1, h1, hw.trans hw2, hs.trans hs2, ?_⟩
  intro i buf _ hb hd
  obtain ⟨_, _, hdp, hdr⟩ := hP
  rw [hw.trans hw2, hs.trans hs2, mem_selectPackets, mem_selectPackets]
  constructor
  · rintro ⟨_, buf1, hb1, ht⟩
    rw [hb] at hb1
    cases hb1
    simp [specToWire, hd, hdp, hdr] at ht
  · rintro ⟨_, buf1, hb1, ht⟩
    rw [hb] at hb1
    cases hb1
    simp [specToStack, hd, hdp, hdr] at ht

/-- Every packet of the sample block is flagged sent or received. -/
theorem sampleBlock_flags (i : Nat) (buf : IntermediateBuffer)
    (hi : i < sampleBlock.readRequest.PacketsSuccess)
    (hb : sampleBlock.packetBuffer[i]? = some buf) :
    buf.DeviceFlags = sampleConfig.PACKET_FLAG_ON_SEND ∨
      buf.DeviceFlags = sampleConfig.PACKET_FLAG_ON_RECEIVE := by
  have h4 : i < 4 := hi
  interval_cases i <;> simp [sampleBlock] at hb <;> subst hb <;> decide

/-- The callbacks of the sample controller leave the device flags of every packet. -/
theorem sampleFilter_keeps_flags (i : Nat) (buf : IntermediateBuffer)
    (_hi : i < sampleBlock.readRequest.PacketsSuccess)
    (_hb : sampleBlock.packetBuffer[i]? = some buf) :
    (packetAction sampleConfig sampleFilter sampleBlock.readRequest.AdapterHandle buf).2.DeviceFlags
      = buf.DeviceFlags := by
  unfold packetAction
  split <;> rfl

/-- The reference partition on the sample block: packets 0 and 1 go to the wire, packet 3
to the stack, packet 2 is dropped. -/
theorem classify_reference_partition_witness :
    ∃ b1, classifyBlock sampleConfig sampleFilter sampleBlock = .ok b1 ∧
      b1.writeAdapterRequest.batch = [some 0, some 1] ∧
      b1.writeMstcpRequest.batch = [some 3] :=
  match classify_reference_partition sampleConfig (by decide) sampleFilter sampleBlock
      (by decide) (by decide) (by decide) (by decide) (by decide) sampleBlock_flags
      sampleFilter_keeps_flags with
  | ⟨b1, h1, hw, hs, _⟩ => ⟨b1, h1, hw.trans (by decide), hs.trans (by decide)⟩

/-- C3. Classification completeness: for a block with K captured packets that fit its
arrays, whose write batches are empty on entry, and callbacks that return only Pass, Drop or Redirect, the
classify stage returns, and afterwards the write-to-stack count plus the write-to-wire
count plus the number of packets given verdict Drop is K, and no captured packet is
referenced by both batches. -/
theorem classify_complete (P : Config) (hDP : P.FilterActionDrop ≠ P.FilterActionPass)
    (hDR : P.FilterActionDrop ≠ P.FilterActionRedirect) (q : QueuedPacketFilter)
    (b : PacketBlock)
    (hK : b.readRequest.PacketsSuccess ≤ b.packetBuffer.length)
    (hcA : b.readRequest.PacketsSuccess ≤ b.writeAdapterRequest.EthernetPackets.length)
    (hcM : b.readRequest.PacketsSuccess ≤ b.writeMstcpRequest.EthernetPackets.length)
    (hA : b.writeAdapterRequest.PacketsNumber = 0)
    (hM : b.writeMstcpRequest.PacketsNumber = 0)
    (hv : ∀ cb, q.filterIncomingPacket = some cb ∨ q.filterOutgoingPacket = some cb →
      ∀ h buf, (cb h buf).1 = P.FilterActionPass ∨ (cb h buf).1 = P.FilterActionDrop ∨
        (cb h buf).1 = P.FilterActionRedirect) :
    ∃ b1, classifyBlock P q b = .ok b1 ∧
      b1.writeMstcpRequest.PacketsNumber + b1.writeAdapterRequest.PacketsNumber +
        (selectPackets b.packetBuffer b.readRequest.PacketsSuccess fun buf =>
          decide (specVerdict P q.filterIncomingPacket q.filterOutgoingPacket
            b.readRequest.AdapterHandle buf = P.FilterActionDrop)).length
        = b.readRequest.PacketsSuccess ∧
      ∀ i, ¬ (some i ∈ b1.writeAdapterRequest.batch ∧ some i ∈ b1.writeMstcpRequest.batch) := by
  obtain ⟨b1, h1, _, hw, hs, hnw, hns⟩ := classifyBlock_batches P q b hK hcA hcM hA hM
  refine ⟨b1, h1, ?_, ?_⟩
  · rw [hnw, hns]
    simp only [selectPackets, List.length_map]
    have hcount := count_three (List.range b.readRequest.PacketsSuccess)
      (testAt b.packetBuffer (goesToStack P q b.readRequest.AdapterHandle))
      (testAt b.packetBuffer (goesToWire P q b.readRequest.AdapterHandle))
      (testAt b.packetBuffer fun buf =>
          decide (specVerdict P q.filterIncomingPacket q.filterOutgoingPacket
            b.readRequest.AdapterHandle buf = P.FilterActionDrop)) ?_
    · simpa using hcount
    · intro i hi
      rw [List.mem_range] at hi
      have hlt : i < b.packetBuffer.length := by omega
      have hb : b.packetBuffer[i]? = some b.packetBuffer[i] := List.getElem?_eq_getElem hlt
      simp only [testAt, hb, goesToStack, goesToWire, packetAction_verdict]
      have hval : ∀ buf, specVerdict P q.filterIncomingPacket q.filterOutgoingPacket
          b.readRequest.AdapterHandle buf = P.FilterActionPass ∨
          specVerdict P q.filterIncomingPacket q.filterOutgoingPacket
          b.readRequest.AdapterHandle buf = P.FilterActionDrop ∨
          specVerdict P q.filterIncomingPacket q.filterOutgoingPacket
          b.readRequest.AdapterHandle buf = P.FilterActionRedirect := by
        intro buf
        unfold specVerdict
        split
        · rename_i cb hcb
          split at hcb
          · exact hv cb (Or.inr hcb) _ _
          · exact hv cb (Or.inl hcb) _ _
        · exact Or.inl rfl
      rcases hval b.packetBuffer[i] with h | h | h
      · have hpd : ¬ P.FilterActionPass = P.FilterActionDrop := fun e => hDP e.symm
        by_cases hs : (packetAction P q b.readRequest.AdapterHandle
            b.packetBuffer[i]).2.DeviceFlags = P.PACKET_FLAG_ON_SEND <;>
          simp [h, hs, hpd]
      · simp [h, hDP, hDR]
      · have hrd : ¬ P.FilterActionRedirect = P.FilterActionDrop := fun e => hDR e.symm
        have hpd : ¬ P.FilterActionPass = P.FilterActionDrop := fun e => hDP e.symm
        by_cases hp : P.FilterActionRedirect = P.FilterActionPass
        · by_cases hs : (packetAction P q b.readRequest.AdapterHandle
            b.packetBuffer[i]).2.DeviceFlags = P.PACKET_FLAG_ON_SEND <;>
            simp [h, hs, hp, hrd, hpd]
        · by_cases hr : (packetAction P q b.readRequest.AdapterHandle
            b.packetBuffer[i]).2.DeviceFlags = P.PACKET_FLAG_ON_RECEIVE <;>
            simp [h, hr, hp, hrd, hpd]
  · rintro i ⟨hiw, his⟩
    rw [hw, mem_selectPackets] at hiw
    rw [hs, mem_selectPackets] at his
    obtain ⟨_, buf, hb, ht⟩ := hiw
    obtain ⟨_, buf1, hb1, ht1⟩ := his
    rw [hb] at hb1
    cases hb1
    unfold goesToWire at ht
    unfold goesToStack at ht1
    split at ht
    · simp_all
    · split at ht <;> simp_all

/-- The callbacks of the sample controller return only Pass, Drop or Redirect. -/
theorem sampleFilter_verdicts (cb : PacketCallback)
    (hcb : sampleFilter.filterIncomingPacket = some cb ∨
      sampleFilter.filterOutgoingPacket = some cb) (h : Handle) (buf : IntermediateBuffer) :
    (cb h buf).1 = sampleConfig.FilterActionPass ∨
      (cb h buf).1 = sampleConfig.FilterActionDrop ∨
      (cb h buf).1 = sampleConfig.FilterActionRedirect := by
  have hcb1 : cb = verdictFromPacket := by
    rcases hcb with hcb | hcb <;> simp [sampleFilter] at hcb <;> exact hcb.symm
  subst hcb1
  show buf.Buffer.headD 0 % 3 = 0 ∨ buf.Buffer.headD 0 % 3 = 1 ∨ buf.Buffer.headD 0 % 3 = 2
  omega

/-- Completeness on the sample block: the two batch counts and the one dropped packet add
up to the four captured packets. -/
theorem classify_complete_witness :
    ∃ b1, classifyBlock sampleConfig sampleFilter sampleBlock = .ok b1 ∧
      b1.writeMstcpRequest.PacketsNumber + b1.writeAdapterRequest.PacketsNumber + 1 = 4 ∧
      ∀ i, ¬ (some i ∈ b1.writeAdapterRequest.batch ∧ some i ∈ b1.writeMstcpRequest.batch) :=
  match classify_complete sampleConfig (by decide) (by decide) sampleFilter sampleBlock
      (by decide) (by decide) (by decide) (by decide) (by decide) sampleFilter_verdicts with
  | ⟨b1, h1, hn, hd⟩ => ⟨b1, h1, hn, hd⟩

/-- C9 as stated fails: a captured packet whose device flags are zero is placed in the
write-to-stack batch under verdict Pass and again in the write-to-stack batch under verdict
Redirect, so Redirect does not send it to the other batch. -/
theorem redirect_same_batch_when_unflagged :
    batchesOf (classifyBlock sampleConfig passFilter unflaggedBlock) = some ([], [some 0]) ∧
    batchesOf (classifyBlock sampleConfig redirectFilter unflaggedBlock)
      = some ([], [some 0]) := by
  decide

/-- C9, amended. For a captured packet flagged sent or received whose callback leaves the
device flags as captured, the batch the classify stage places it in under verdict Redirect
is the other batch from the one it places it in under verdict Pass: with `qp` a controller
whose callbacks give the packet verdict Pass and `qr` one whose callbacks give it verdict
Redirect, both leaving its flags, both runs of the stage return, and either the packet is
in the write-to-wire batch only under `qp` and in the write-to-stack batch only under `qr`,
or the other way round. A packet not flagged sent is handed to the inbound callback. -/
theorem redirect_inverts_pass (P : Config) (hP : P.Distinct) (qp qr : QueuedPacketFilter)
    (b : PacketBlock)
    (hK : b.readRequest.PacketsSuccess ≤ b.packetBuffer.length)
    (hcA : b.readRequest.PacketsSuccess ≤ b.writeAdapterRequest.EthernetPackets.length)
    (hcM : b.readRequest.PacketsSuccess ≤ b.writeMstcpRequest.EthernetPackets.length)
    (hA : b.writeAdapterRequest.PacketsNumber = 0)
    (hM : b.writeMstcpRequest.PacketsNumber = 0)
    (i : Nat) (buf : IntermediateBuffer) (hi : i < b.readRequest.PacketsSuccess)
    (hb : b.packetBuffer[i]? = some buf)
    (hf : buf.DeviceFlags = P.PACKET_FLAG_ON_SEND ∨ buf.DeviceFlags = P.PACKET_FLAG_ON_RECEIVE)
    (hp : (packetAction P qp b.readRequest.AdapterHandle buf).1 = P.FilterActionPass)
    (hpk : (packetAction P qp b.readRequest.AdapterHandle buf).2.DeviceFlags = buf.DeviceFlags)
    (hr : (packetAction P qr b.readRequest.AdapterHandle buf).1 = P.FilterActionRedirect)
    (hrk : (packetAction P qr b.readRequest.AdapterHandle buf).2.DeviceFlags
      = buf.DeviceFlags) :
    (∃ bp br, classifyBlock P qp b = .ok bp ∧ classifyBlock P qr b = .ok br ∧
      ((some i ∈ bp.writeAdapterRequest.batch ∧ some i ∉ bp.writeMstcpRequest.batch ∧
          some i ∈ br.writeMstcpRequest.batch ∧ some i ∉ br.writeAdapterRequest.batch) ∨
        (some i ∈ bp.writeMstcpRequest.batch ∧ some i ∉ bp.writeAdapterRequest.batch ∧
          some i ∈ br.writeAdapterRequest.batch ∧ some i ∉ br.writeMstcpRequest.batch))) ∧
    (buf.DeviceFlags ≠ P.PACKET_FLAG_ON_SEND →
      ∀ q : QueuedPacketFilter, packetAction P q b.readRequest.AdapterHandle buf =
        match q.filterIncomingPacket with
        | some cb => cb b.readRequest.AdapterHandle buf
        | none => (P.FilterActionPass, buf)) := by
  obtain ⟨bp, h1, _, hwp, hsp, _, _⟩ := classifyBlock_batches P qp b hK hcA hcM hA hM
  obtain ⟨br, h2, _, hwr, hsr, _, _⟩ := classifyBlock_batches P qr b hK hcA hcM hA hM
  obtain ⟨hne, hpr, _, _⟩ := hP
  have key : ∀ t : IntermediateBuffer → Bool,
      some i ∈ selectPackets b.packetBuffer b.readRequest.PacketsSuccess t ↔ t buf = true := by
    intro t
    rw [mem_selectPackets]
    constructor
    · rintro ⟨_, buf1, hb1, ht⟩
      rw [hb] at hb1
      cases hb1
      exact ht
    · intro ht
      exact ⟨hi, buf, hb, ht⟩
  have hrp : ¬ P.FilterActionRedirect = P.FilterActionPass := fun e => hpr e.symm
  refine ⟨⟨bp, br, h1, h2, ?_⟩, ?_⟩
  · rw [hwp, hsp, hwr, hsr, key, key, key, key]
    unfold goesToWire goesToStack
    rw [hp, hr, hpk, hrk]
    rcases hf with hf | hf
    · left
      simp [hf, hrp, hne]
    · right
      have hne1 : ¬ P.PACKET_FLAG_ON_RECEIVE = P.PACKET_FLAG_ON_SEND := fun e => hne e.symm
      simp [hf, hrp, hne1]
  · intro hns q
    unfold packetAction
    rw [if_neg hns]

/-- Packet 1 of the sample block, flagged received: to the stack under Pass, to the wire
under Redirect. -/
theorem redirect_inverts_pass_witness :
    ∃ bp br, classifyBlock sampleConfig passFilter sampleBlock = .ok bp ∧
      classifyBlock sampleConfig redirectFilter sampleBlock = .ok br ∧
      ((some 1 ∈ bp.writeAdapterRequest.batch ∧ some 1 ∉ bp.writeMstcpRequest.batch ∧
          some 1 ∈ br.writeMstcpRequest.batch ∧ some 1 ∉ br.writeAdapterRequest.batch) ∨
        (some 1 ∈ bp.writeMstcpRequest.batch ∧ some 1 ∉ bp.writeAdapterRequest.batch ∧
          some 1 ∈ br.writeAdapterRequest.batch ∧ some 1 ∉ br.writeMstcpRequest.batch)) :=
  (redirect_inverts_pass sampleConfig (by decide) passFilter redirectFilter sampleBlock
    (by decide) (by decide) (by decide) (by decide) (by decide) 1 ⟨2, [2]⟩ (by decide)
    (by decide) (by decide) (by decide) (by decide) (by decide) (by decide)).1

/-! ## Properties of the lifecycle -/

theorem drainChan_nil (ch : List PacketBlock) : drainChan ch = [] := by
  induction ch with
  | nil => rfl
  | cons _ _ ih => simpa [drainChan] using ih

theorem chanSend_length (P : Config) (ch ch1 : List PacketBlock) (b : PacketBlock)
    (h : chanSend P ch b = .ok ch1) :
    ch1.length = ch.length + 1 ∧ ch1.length ≤ P.MaximumPacketBlock := by
  unfold chanSend at h
  by_cases hlt : ch.length < P.MaximumPacketBlock
  · rw [if_pos hlt] at h
    cases h
    refine ⟨by simp, ?_⟩
    simp only [List.length_append, List.length_singleton]
    omega
  · rw [if_neg hlt] at h
    cases h

theorem seedPool_ok (P : Config) (n : Nat) :
    ∀ (f : QueuedPacketFilter) (na : NetworkAdapter), currentAdapter f = .ok na →
      f.packetReadChan.length + n ≤ P.MaximumPacketBlock →
      seedPool P f n = .ok { f with packetReadChan :=
        f.packetReadChan ++ List.replicate n (NewPacketBlock P na.GetAdapter) } := by
  induction n with
  | zero => intro f na _ _; simp [seedPool]
  | succ n ih =>
    intro f na hna hlen
    have hlt : f.packetReadChan.length < P.MaximumPacketBlock := by omega
    have hna1 : currentAdapter { f with packetReadChan :=
        f.packetReadChan ++ [NewPacketBlock P na.GetAdapter] } = .ok na := hna
    have := ih _ na hna1 (by simp only [List.length_append, List.length_singleton]; omega)
    simp only [seedPool, hna, chanSend, if_pos hlt, this]
    simp [List.replicate_succ]

theorem seedPool_inv (P : Config) (n : Nat) :
    ∀ (f f1 : QueuedPacketFilter), seedPool P f n = .ok f1 →
      ∃ ch, f1 = { f with packetReadChan := ch } ∧ ch.length = f.packetReadChan.length + n ∧
        (0 < n → ∃ na, currentAdapter f = .ok na) := by
  induction n with
  | zero =>
    intro f f1 h
    simp only [seedPool] at h
    cases h
    exact ⟨f.packetReadChan, rfl, rfl, fun h => absurd h (Nat.lt_irrefl 0)⟩
  | succ n ih =>
    intro f f1 h
    simp only [seedPool] at h
    cases hna : currentAdapter f with
    | error e => simp [hna] at h
    | ok na =>
      simp only [hna] at h
      cases hs : chanSend P f.packetReadChan (NewPacketBlock P na.GetAdapter) with
      | error e => simp [hs] at h
      | ok ch =>
        simp only [hs] at h
        obtain ⟨ch1, hf1, hlen, _⟩ := ih _ _ h
        have := (chanSend_length P _ _ _ hs).1
        refine ⟨ch1, hf1, ?_, fun _ => ⟨na, rfl⟩⟩
        simp only at hlen
        omega

theorem currentAdapter_ok_iff (f : QueuedPacketFilter) (na : NetworkAdapter) :
    currentAdapter f = .ok na ↔
      0 ≤ f.adapter ∧ f.networkInterfaces[f.adapter.toNat]? = some na := by
  unfold currentAdapter
  by_cases h0 : 0 ≤ f.adapter
  · rw [if_pos h0]
    cases hg : f.networkInterfaces[f.adapter.toNat]? with
    | none => simp [h0]
    | some x => simp [h0]
  · rw [if_neg h0]
    simp [h0]

theorem initFilter_ok_inv (P : Config) (env : StartEnv) (f f1 : QueuedPacketFilter)
    (h : initFilter P env f = .ok (f1, none)) :
    ∃ ch nis, f1 = { f with packetReadChan := ch, networkInterfaces := nis } ∧
      ch.length = f.packetReadChan.length + P.MaximumPacketBlock ∧
      nis.length = f.networkInterfaces.length ∧
      0 ≤ f.adapter ∧ f.adapter.toNat < f.networkInterfaces.length := by
  unfold initFilter at h
  cases hs : seedPool P f P.MaximumPacketBlock with
  | error e => simp [hs] at h
  | ok f0 =>
    obtain ⟨ch, hf0, hlen, _⟩ := seedPool_inv P _ _ _ hs
    simp only [hs] at h
    cases hna : currentAdapter f0 with
    | error e => simp [hna] at h
    | ok na =>
      simp only [hna] at h
      cases hev : env.packetEvent with
      | some err => simp [hev, NetworkAdapter.SetPacketEvent] at h
      | none =>
        simp only [hev, NetworkAdapter.SetPacketEvent, Except.ok.injEq, Prod.mk.injEq,
          and_true] at h
        subst hf0
        obtain ⟨h0, hget⟩ := (currentAdapter_ok_iff _ _).1 hna
        have hlt : f.adapter.toNat < f.networkInterfaces.length := by
          have := (List.getElem?_eq_some.1 hget).1
          exact this
        refine ⟨ch, f1.networkInterfaces, ?_, hlen, ?_, h0, hlt⟩
        · rw [← h]
          rfl
        · rw [← h]
          simp [setCurrentAdapter]

theorem StartFilter_ok_inv (P : Config) (env : StartEnv) (f f1 : QueuedPacketFilter)
    (adapterIdx : Int) (h : StartFilter P env f adapterIdx = .ok (f1, none)) :
    f.filterState = .Stopped ∧
    ∃ ch nis, f1 =
      { f with
        filterState := .Running
        adapter := adapterIdx
        cancelFunc := some f.ctxMade
        ctxMade := f.ctxMade + 1
        wg := f.wg + 4
        started := f.started ++ [Stage.packetRead, Stage.packetProcess,
          Stage.packetWriteMstcp, Stage.packetWriteAdapter]
        packetReadChan := ch
        networkInterfaces := nis } ∧
      ch.length = f.packetReadChan.length + P.MaximumPacketBlock ∧
      nis.length = f.networkInterfaces.length ∧
      0 ≤ adapterIdx ∧ adapterIdx.toNat < f.networkInterfaces.length := by
  unfold StartFilter at h
  by_cases hst : f.filterState = .Stopped
  · refine ⟨hst, ?_⟩
    rw [if_neg (by simp [hst])] at h
    simp only at h
    cases hi : initFilter P env { f with filterState := .Starting, adapter := adapterIdx } with
    | error e => simp [hi] at h
    | ok r =>
      obtain ⟨f0, err⟩ := r
      cases err with
      | some e => simp [hi] at h
      | none =>
        obtain ⟨ch, nis, hf0, hlen, hnl, h0, hlt⟩ := initFilter_ok_inv P env _ _ hi
        simp only [hi, Except.ok.injEq, Prod.mk.injEq, and_true] at h
        subst hf0
        exact ⟨ch, nis, h.symm, hlen, hnl, h0, hlt⟩
  · rw [if_pos hst] at h
    simp at h

/-- C1. State machine legality with no side effects: whatever the controller, StartFilter
called in a state other than Stopped, StopFilter called in a state other than Running and
Reconfigure called in a state other than Stopped each return an error and the controller
exactly as it was, with its filter state, selected adapter, adapter list and four queues
untouched. -/
theorem illegal_state_rejected (P : Config) (env : StartEnv) (enumEnv : EnumEnv)
    (f : QueuedPacketFilter) (adapterIdx : Int) :
    (f.filterState ≠ .Stopped →
      StartFilter P env f adapterIdx = .ok (f, some "filter is not stopped")) ∧
    (f.filterState ≠ .Running → StopFilter f = (f, some "filter is not running")) ∧
    (f.filterState ≠ .Stopped →
      Reconfigure enumEnv f = .ok (f, some "filter is not stopped")) := by
  refine ⟨fun h => ?_, fun h => ?_, fun h => ?_⟩
  · unfold StartFilter
    rw [if_pos h]
  · unfold StopFilter
    rw [if_pos h]
  · unfold Reconfigure
    rw [if_pos h]

/-- StartFilter and Reconfigure rejected on a running controller, StopFilter on a stopped
one, each returning the controller it was given. -/
theorem illegal_state_rejected_witness :
    StartFilter sampleConfig ⟨none, none⟩ runningFilter 0
        = .ok (runningFilter, some "filter is not stopped") ∧
      StopFilter sampleFilter = (sampleFilter, some "filter is not running") ∧
      Reconfigure sampleEnum runningFilter = .ok (runningFilter, some "filter is not stopped") :=
  ⟨(illegal_state_rejected sampleConfig ⟨none, none⟩ sampleEnum runningFilter 0).1 (by decide),
   (illegal_state_rejected sampleConfig ⟨none, none⟩ sampleEnum sampleFilter 0).2.1 (by decide),
   (illegal_state_rejected sampleConfig ⟨none, none⟩ sampleEnum runningFilter 0).2.2
     (by decide)⟩

/-- C6 on the failing input: on the sample controller (Stopped, empty queues, adapter 0
present), with the event registered and the mode-set request failing, StartFilter returns
no error, the filter state is Running, the four workers are launched and the capture queue
holds the N = 4 seeded blocks. -/
theorem start_ignores_mode_failure :
    startOutcome (StartFilter sampleConfig ⟨none, some "set mode failed"⟩ sampleFilter 0)
      = some (none, .Running, 4, [Stage.packetRead, Stage.packetProcess,
          Stage.packetWriteMstcp, Stage.packetWriteAdapter]) := by
  decide

/-! ## Properties of the worker goroutines -/

theorem countP_set (p : Worker → Bool) (l : List Worker) (i : Nat) (w w1 : Worker)
    (h : l[i]? = some w) :
    (l.set i w1).countP p + (if p w then 1 else 0) = l.countP p + (if p w1 then 1 else 0) := by
  induction l generalizing i with
  | nil => simp at h
  | cons a t ih =>
    cases i with
    | zero =>
      simp only [List.getElem?_cons_zero, Option.some.injEq] at h
      subst h
      simp only [List.set_cons_zero, List.countP_cons]
      omega
    | succ j =>
      simp only [List.getElem?_cons_succ] at h
      have := ih j h
      simp only [List.set_cons_succ, List.countP_cons]
      omega

theorem queued_setInputChan (f : QueuedPacketFilter) (st : Stage) (b : PacketBlock)
    (rest : List PacketBlock) (h : inputChan f st = b :: rest) :
    queued (setInputChan f rest st) + 1 = queued f := by
  cases st <;> simp only [inputChan] at h <;> simp [queued, setInputChan, h] <;> omega

theorem queued_setOutputChan (f : QueuedPacketFilter) (st : Stage) (ch : List PacketBlock)
    (h : ch.length = (outputChan f st).length + 1) :
    queued (setOutputChan f ch st) = queued f + 1 := by
  cases st <;> simp only [outputChan] at h <;> simp [queued, setOutputChan, h] <;> omega

theorem sameControl_setInputChan (f : QueuedPacketFilter) (st : Stage) (ch : List PacketBlock) :
    sameControl f (setInputChan f ch st) := by
  cases st <;> exact ⟨rfl, rfl, rfl, rfl, rfl⟩

theorem sameControl_setOutputChan (f : QueuedPacketFilter) (st : Stage) (ch : List PacketBlock) :
    sameControl f (setOutputChan f ch st) := by
  cases st <;> exact ⟨rfl, rfl, rfl, rfl, rfl⟩

theorem step_total (P : Config) (s s1 : Pipeline) (a : Action) (h : step P s a = some s1) :
    queued s1.f + held s1 = queued s.f + held s ∧ sameControl s.f s1.f := by
  have move : ∀ (i : Nat) (w : Worker) (p : Position) (f : QueuedPacketFilter),
      s.workers[i]? = some w → w.holds = Worker.holds { w with position := p } →
      held ⟨f, moveWorker s i w p⟩ = held s := by
    intro i w p f hw hh
    have := countP_set Worker.holds s.workers i w { w with position := p } hw
    rw [← hh] at this
    simp only [held, moveWorker]
    omega
  cases a with
  | test i =>
    simp only [step] at h
    cases hw : s.workers[i]? with
    | none => simp [hw] at h
    | some w =>
      simp only [hw] at h
      cases hp : w.position with
      | holding b => simp [hp] at h
      | sending b => simp [hp] at h
      | receiving => simp [hp] at h
      | returned => simp [hp] at h
      | launched =>
        have hh : w.holds = false := by simp [Worker.holds, hp]
        simp only [hp] at h
        split at h
        · cases h
          exact ⟨by rw [move i w .returned _ hw (by rw [hh]; rfl)]; rfl,
            rfl, rfl, rfl, rfl, rfl⟩
        · split at h
          · cases h
            exact ⟨by rw [move i w .returned _ hw (by rw [hh]; rfl)]; rfl,
              rfl, rfl, rfl, rfl, rfl⟩
          · cases h
            exact ⟨by rw [move i w .receiving _ hw (by rw [hh]; rfl)],
              rfl, rfl, rfl, rfl, rfl⟩
      | loopHead =>
        have hh : w.holds = false := by simp [Worker.holds, hp]
        simp only [hp] at h
        split at h
        · cases h
          exact ⟨by rw [move i w .returned _ hw (by rw [hh]; rfl)]; rfl,
            rfl, rfl, rfl, rfl, rfl⟩
        · split at h
          · cases h
            exact ⟨by rw [move i w .returned _ hw (by rw [hh]; rfl)]; rfl,
              rfl, rfl, rfl, rfl, rfl⟩
          · cases h
            exact ⟨by rw [move i w .receiving _ hw (by rw [hh]; rfl)],
              rfl, rfl, rfl, rfl, rfl⟩
  | testWhileStarting i =>
    simp only [step] at h
    cases hw : s.workers[i]? with
    | none => simp [hw] at h
    | some w =>
      simp only [hw] at h
      cases hp : w.position with
      | launched =>
        have hh : w.holds = false := by simp [Worker.holds, hp]
        simp only [hp, Option.some.injEq] at h
        subst h
        exact ⟨by rw [move i w .returned _ hw (by rw [hh]; rfl)]; rfl,
          rfl, rfl, rfl, rfl, rfl⟩
      | holding b => simp [hp] at h
      | sending b => simp [hp] at h
      | receiving => simp [hp] at h
      | returned => simp [hp] at h
      | loopHead => simp [hp] at h
  | receive i =>
    simp only [step] at h
    cases hw : s.workers[i]? with
    | none => simp [hw] at h
    | some w =>
      simp only [hw] at h
      split at h
      · rename_i b rest hp hin
        cases h
        have hh : w.holds = false := by simp [Worker.holds, hp]
        have := countP_set Worker.holds s.workers i w { w with position := .holding b } hw
        simp only [hh] at this
        have hq := queued_setInputChan s.f w.stage b rest hin
        refine ⟨?_, sameControl_setInputChan _ _ _⟩
        simp only [held, moveWorker]
        simp [Worker.holds] at this
        omega
      · cases h
  | drain i delivered =>
    simp only [step] at h
    cases hw : s.workers[i]? with
    | none => simp [hw] at h
    | some w =>
      simp only [hw] at h
      split at h
      · rename_i b hst hp
        have hh : w.holds = true := by simp [Worker.holds, hp]
        split at h
        · split at h
          · cases h
            exact ⟨by rw [move i w _ _ hw (by rw [hh]; rfl)],
              rfl, rfl, rfl, rfl, rfl⟩
          · cases h
            exact ⟨by rw [move i w _ _ hw (by rw [hh]; rfl)],
              rfl, rfl, rfl, rfl, rfl⟩
        · cases h
          exact ⟨by rw [move i w _ _ hw (by rw [hh]; rfl)],
            rfl, rfl, rfl, rfl, rfl⟩
      · cases h
  | send i reads =>
    simp only [step] at h
    cases hw : s.workers[i]? with
    | none => simp [hw] at h
    | some w =>
      simp only [hw] at h
      cases hp : w.position with
      | holding b =>
        simp only [hp] at h
        cases hwk : stageWork P s.f reads w.stage b with
        | none => simp [hwk] at h
        | some b1 =>
          simp only [hwk] at h
          cases hs : chanSend P (outputChan s.f w.stage) b1 with
          | error e => simp [hs] at h
          | ok ch =>
            simp only [hs, Option.some.injEq] at h
            subst h
            have hh : w.holds = true := by simp [Worker.holds, hp]
            have := countP_set Worker.holds s.workers i w { w with position := .loopHead } hw
            simp only [hh] at this
            have hq := queued_setOutputChan s.f w.stage ch (chanSend_length P _ _ _ hs).1
            refine ⟨?_, sameControl_setOutputChan _ _ _⟩
            simp only [held, moveWorker]
            simp [Worker.holds] at this
            omega
      | sending b =>
        simp only [hp] at h
        cases hs : chanSend P (outputChan s.f w.stage) b with
        | error e => simp [hs] at h
        | ok ch =>
          simp only [hs, Option.some.injEq] at h
          subst h
          have hh : w.holds = true := by simp [Worker.holds, hp]
          have := countP_set Worker.holds s.workers i w { w with position := .loopHead } hw
          simp only [hh] at this
          have hq := queued_setOutputChan s.f w.stage ch (chanSend_length P _ _ _ hs).1
          refine ⟨?_, sameControl_setOutputChan _ _ _⟩
          simp only [held, moveWorker]
          simp [Worker.holds] at this
          omega
      | launched => simp [hp] at h
      | receiving => simp [hp] at h
      | returned => simp [hp] at h
      | loopHead => simp [hp] at h

theorem run_total (P : Config) (acts : List Action) :
    ∀ (s s1 : Pipeline), run P s acts = some s1 →
      queued s1.f + held s1 = queued s.f + held s ∧ sameControl s.f s1.f := by
  induction acts with
  | nil =>
    intro s s1 h
    simp only [run, Option.some.injEq] at h
    subst h
    exact ⟨rfl, rfl, rfl, rfl, rfl, rfl⟩
  | cons a rest ih =>
    intro s s1 h
    simp only [run] at h
    cases hs : step P s a with
    | none => simp [hs] at h
    | some s2 =>
      simp only [hs] at h
      obtain ⟨h1, c1, c2, c3, c4, c5⟩ := step_total P s s2 a hs
      obtain ⟨g1, d1, d2, d3, d4, d5⟩ := ih s2 s1 h
      exact ⟨g1.trans h1, d1.trans c1, d2.trans c2, d3.trans c3, d4.trans c4, d5.trans c5⟩

theorem StartFilter_ok (P : Config) (env : StartEnv) (f : QueuedPacketFilter)
    (adapterIdx : Int) (na : NetworkAdapter)
    (hS : f.filterState = .Stopped) (hq : f.packetReadChan = [])
    (h0 : 0 ≤ adapterIdx) (hna : f.networkInterfaces[adapterIdx.toNat]? = some na)
    (hev : env.packetEvent = none) :
    ∃ f1, StartFilter P env f adapterIdx = .ok (f1, none) := by
  have hcur : currentAdapter { f with filterState := .Starting, adapter := adapterIdx }
      = .ok na := by
    simp only [currentAdapter, if_pos h0, hna]
  have hseed := seedPool_ok P P.MaximumPacketBlock _ na hcur (by simp [hq])
  have hcur1 : currentAdapter
      { f with
        filterState := .Starting
        adapter := adapterIdx
        packetReadChan := f.packetReadChan ++
          List.replicate P.MaximumPacketBlock (NewPacketBlock P na.GetAdapter) } = .ok na := hcur
  unfold StartFilter
  rw [if_neg (by simp [hS])]
  simp only [initFilter, hseed, hcur1, hev, NetworkAdapter.SetPacketEvent]
  exact ⟨_, rfl⟩

theorem StopFilter_running (f : QueuedPacketFilter) (hr : f.filterState = .Running) :
    ∃ f2, StopFilter f = (f2, none) ∧ f2.filterState = .Stopped ∧
      f2.networkInterfaces = f.networkInterfaces ∧ f2.adapter = f.adapter := by
  unfold StopFilter
  rw [if_neg (by simp [hr])]
  refine ⟨_, rfl, rfl, ?_, ?_⟩ <;> cases f.cancelFunc <;> rfl

theorem ReleaseFilter_ok (f : QueuedPacketFilter) (na : NetworkAdapter)
    (hc : currentAdapter f = .ok na) :
    ∃ f3, ReleaseFilter f = .ok f3 ∧ f3.filterState = f.filterState ∧
      f3.packetReadChan = [] ∧ f3.packetProcessChan = [] ∧ f3.packetWriteMstcpChan = [] ∧
      f3.packetWriteAdapterChan = [] ∧
      f3.networkInterfaces.length = f.networkInterfaces.length := by
  unfold ReleaseFilter
  simp only [hc, drainChan_nil]
  exact ⟨_, rfl, rfl, rfl, rfl, rfl, rfl, by simp [setCurrentAdapter]⟩

theorem held_eq_zero_of_quiet (s : Pipeline) (h : quiet s = true) : held s = 0 := by
  unfold held
  rw [List.countP_eq_zero]
  intro w hw
  unfold quiet at h
  rw [List.all_eq_true] at h
  have := h w hw
  simp only [Bool.not_eq_true', Bool.or_eq_false_iff] at this
  simp [this.1]

theorem Pipeline.StartFilter_inv (P : Config) (env : StartEnv) (s s1 : Pipeline)
    (adapterIdx : Int) (h : Pipeline.StartFilter P env s adapterIdx = .ok (s1, none)) :
    NdisApi.StartFilter P env s.f adapterIdx = .ok (s1.f, none) ∧
      s1.workers = s.workers ++ launch s.f.ctxMade ∧ held s1 = held s := by
  unfold Pipeline.StartFilter at h
  cases hf : NdisApi.StartFilter P env s.f adapterIdx with
  | error e => simp [hf] at h
  | ok r =>
    obtain ⟨f1, err⟩ := r
    cases err with
    | some e => simp [hf] at h
    | none =>
      simp only [hf, Except.ok.injEq, Prod.mk.injEq, and_true] at h
      subst h
      refine ⟨rfl, rfl, ?_⟩
      simp [held, launch, Worker.holds]

theorem pool_total (P : Config) (env : StartEnv) (s0 s1 s : Pipeline) (adapterIdx : Int)
    (acts : List Action)
    (hq1 : s0.f.packetReadChan = []) (hq2 : s0.f.packetProcessChan = [])
    (hq3 : s0.f.packetWriteMstcpChan = []) (hq4 : s0.f.packetWriteAdapterChan = [])
    (hstart : Pipeline.StartFilter P env s0 adapterIdx = .ok (s1, none))
    (hrun : run P s1 acts = some s) :
    queued s.f + held s = P.MaximumPacketBlock + held s0 := by
  obtain ⟨hf, _, hh⟩ := Pipeline.StartFilter_inv P env s0 s1 adapterIdx hstart
  obtain ⟨_, ch, nis, hf1, hlen, _⟩ := StartFilter_ok_inv P env s0.f s1.f adapterIdx hf
  have h0 : queued s1.f = P.MaximumPacketBlock := by
    rw [hf1]
    simp [queued, hq1, hq2, hq3, hq4] at hlen ⊢
    exact hlen
  have htot := (run_total P acts _ _ hrun).1
  omega

/-- C4 as stated fails. The capture worker of a first session takes a block; StopFilter
returns without waiting for it and ReleaseFilter empties the four queues. StartFilter then
succeeds on a controller whose four queues are empty and seeds N = 4 blocks, while the
worker of the first session still holds its block: five blocks are in the queues and in
the hands of the workers. The worker then sends its block on, and the four queues together
hold five blocks. -/
theorem pool_grows_across_sessions :
    (releasedHolding.f.packetReadChan = [] ∧ releasedHolding.f.packetProcessChan = [] ∧
      releasedHolding.f.packetWriteMstcpChan = [] ∧
      releasedHolding.f.packetWriteAdapterChan = []) ∧
    Pipeline.StartFilter sampleConfig ⟨none, none⟩ releasedHolding 0
      = .ok (secondSession, none) ∧
    queued secondSession.f + held secondSession = 5 ∧
    (match run sampleConfig secondSession [.send 0 [[]]] with
      | some s => some (queued s.f, held s)
      | none => none) = some (5, 0) :=
  ⟨by decide, rfl, by decide, by decide⟩

/-- C4, amended. Pool conservation during a session: from the state a successful
StartFilter produces on a controller whose four queues were empty, no worker left over
from an earlier session holding a block, after any interleaving of worker steps the number
of blocks in the four queues plus the number held by the workers is the pool size N, and
therefore no queue holds more than N blocks. -/
theorem pool_conservation (P : Config) (env : StartEnv) (s0 s1 s : Pipeline)
    (adapterIdx : Int) (acts : List Action)
    (hq1 : s0.f.packetReadChan = []) (hq2 : s0.f.packetProcessChan = [])
    (hq3 : s0.f.packetWriteMstcpChan = []) (hq4 : s0.f.packetWriteAdapterChan = [])
    (hheld : held s0 = 0)
    (hstart : Pipeline.StartFilter P env s0 adapterIdx = .ok (s1, none))
    (hrun : run P s1 acts = some s) :
    queued s.f + held s = P.MaximumPacketBlock ∧
      s.f.packetReadChan.length ≤ P.MaximumPacketBlock ∧
      s.f.packetProcessChan.length ≤ P.MaximumPacketBlock ∧
      s.f.packetWriteMstcpChan.length ≤ P.MaximumPacketBlock ∧
      s.f.packetWriteAdapterChan.length ≤ P.MaximumPacketBlock := by
  have htot := pool_total P env s0 s1 s adapterIdx acts hq1 hq2 hq3 hq4 hstart hrun
  rw [hheld, Nat.add_zero] at htot
  have hqd : queued s.f ≤ P.MaximumPacketBlock := by omega
  unfold queued at hqd
  exact ⟨htot, by omega, by omega, by omega, by omega⟩

/-- After the steps `sampleActions` on a fresh process two blocks are on the capture
queue, two are held by workers, and the total is the pool size four. -/
theorem pool_conservation_witness :
    queued sampleState.f + held sampleState = 4 ∧ sampleState.f.packetReadChan.length = 2 ∧
      held sampleState = 2 :=
  ⟨(pool_conservation sampleConfig ⟨none, none⟩ freshProcess firstSession sampleState 0
      sampleActions rfl rfl rfl rfl rfl rfl rfl).1, by decide, by decide⟩

/-- C10 as stated fails. On the sample process with N = 4: StartFilter succeeds and
StopFilter returns without error, the capture queue still holds the four blocks, and the
following StartFilter, with no ReleaseFilter in between, finds the capture queue full at
its first send and blocks there. The same happens after the worker steps `sampleActions`,
which leave two blocks on the capture queue: the third send finds the queue full. -/
theorem restart_without_release_blocks :
    (Pipeline.StartFilter sampleConfig ⟨none, none⟩ freshProcess 0 = .ok (firstSession, none) ∧
      run sampleConfig firstSession [] = some firstSession ∧
      (Pipeline.StopFilter firstSession).2 = none ∧
      (Pipeline.StopFilter firstSession).1.f.packetReadChan.length = 4 ∧
      startFault (Pipeline.StartFilter sampleConfig ⟨none, none⟩
        (Pipeline.StopFilter firstSession).1 0) = some .blockedOnSend) ∧
    (run sampleConfig firstSession sampleActions = some sampleState ∧
      (Pipeline.StopFilter sampleState).2 = none ∧
      (Pipeline.StopFilter sampleState).1.f.packetReadChan.length = 2 ∧
      startFault (Pipeline.StartFilter sampleConfig ⟨none, none⟩
        (Pipeline.StopFilter sampleState).1 0) = some .blockedOnSend) :=
  ⟨⟨rfl, rfl, by decide, by decide, by decide⟩, rfl, by decide, by decide, by decide⟩

/-- C10, amended. After a successful StartFilter and any number of worker steps,
StopFilter returns without error. Let the workers then take further steps, and let
ReleaseFilter be called once no worker holds a block or waits in a receive. ReleaseFilter
returns, and a following StartFilter on an adapter index that selects an adapter, its
event registration succeeding, returns without error: every one of its N sends finds room
on the capture queue. Afterwards the capture queue holds exactly N blocks, the four queues
together hold exactly N and no worker holds one, and in every state the workers reach from
there the blocks in the queues and in their hands number N. -/
theorem restart_after_release (P : Config) (env env2 : StartEnv)
    (s0 s1 s2 s3 : Pipeline) (adapterIdx adapterIdx2 : Int) (acts1 acts2 : List Action)
    (hstart : Pipeline.StartFilter P env s0 adapterIdx = .ok (s1, none))
    (hrun1 : run P s1 acts1 = some s2)
    (hrun2 : run P (Pipeline.StopFilter s2).1 acts2 = some s3)
    (hquiet : quiet s3 = true)
    (h0 : 0 ≤ adapterIdx2) (hlt : adapterIdx2.toNat < s0.f.networkInterfaces.length)
    (hev : env2.packetEvent = none) :
    (Pipeline.StopFilter s2).2 = none ∧
    ∃ s4 s5, Pipeline.ReleaseFilter s3 = .ok s4 ∧
      Pipeline.StartFilter P env2 s4 adapterIdx2 = .ok (s5, none) ∧
      s5.f.packetReadChan.length = P.MaximumPacketBlock ∧
      queued s5.f = P.MaximumPacketBlock ∧ held s5 = 0 ∧
      ∀ acts s, run P s5 acts = some s → queued s.f + held s = P.MaximumPacketBlock := by
  obtain ⟨hf, _, _⟩ := Pipeline.StartFilter_inv P env s0 s1 adapterIdx hstart
  obtain ⟨_, ch, nis, hf1, _, hnl, hi0, hilt⟩ := StartFilter_ok_inv P env s0.f s1.f adapterIdx hf
  obtain ⟨_, hst, hni, had, _, _⟩ := run_total P acts1 _ _ hrun1
  have hf1s : s1.f.filterState = .Running := by rw [hf1]
  have hf1a : s1.f.adapter = adapterIdx := by rw [hf1]
  have hf1n : s1.f.networkInterfaces.length = s0.f.networkInterfaces.length := by
    rw [hf1]; exact hnl
  obtain ⟨f2, h2, hs2, hn2, ha2⟩ := StopFilter_running s2.f (hst.trans hf1s)
  have hstop1 : (Pipeline.StopFilter s2).1.f = f2 := by
    simp only [Pipeline.StopFilter, h2]
  have hstop2 : (Pipeline.StopFilter s2).2 = none := by
    simp only [Pipeline.StopFilter, h2]
  obtain ⟨_, hst3, hni3, had3, _, _⟩ := run_total P acts2 _ _ hrun2
  rw [hstop1] at hst3 hni3 had3
  have hlen3 : s3.f.networkInterfaces.length = s0.f.networkInterfaces.length := by
    rw [hni3, hn2, hni, hf1n]
  have hcur3 : currentAdapter s3.f = .ok (s3.f.networkInterfaces.get
      ⟨s3.f.adapter.toNat, by rw [had3, ha2, had, hf1a, hlen3]; exact hilt⟩) := by
    rw [currentAdapter_ok_iff]
    refine ⟨by rw [had3, ha2, had, hf1a]; exact hi0, ?_⟩
    rw [List.getElem?_eq_getElem]
    rfl
  obtain ⟨f4, h4, hs4, hq1, hq2, hq3, hq4, hn4⟩ := ReleaseFilter_ok s3.f _ hcur3
  have hrel : Pipeline.ReleaseFilter s3 = .ok ⟨f4, s3.workers⟩ := by
    simp only [Pipeline.ReleaseFilter, h4]
  have hlt4 : adapterIdx2.toNat < f4.networkInterfaces.length := by
    rw [hn4, hlen3]; exact hlt
  obtain ⟨f5, h5⟩ := StartFilter_ok P env2 f4 adapterIdx2 _ (hs4.trans (hst3.trans hs2)) hq1 h0
    (List.getElem?_eq_getElem hlt4) hev
  have hstart5 : Pipeline.StartFilter P env2 ⟨f4, s3.workers⟩ adapterIdx2
      = .ok (⟨f5, s3.workers ++ launch f4.ctxMade⟩, none) := by
    simp only [Pipeline.StartFilter, h5]
  obtain ⟨_, ch5, nis5, hf5, hlen5, _⟩ := StartFilter_ok_inv P env2 f4 f5 adapterIdx2 h5
  have hheld4 : held (⟨f4, s3.workers⟩ : Pipeline) = 0 := held_eq_zero_of_quiet s3 hquiet
  have hheld5 := (Pipeline.StartFilter_inv P env2 _ _ adapterIdx2 hstart5).2.2
  refine ⟨hstop2, _, _, hrel, hstart5, ?_, ?_, by rw [hheld5, hheld4], ?_⟩
  · subst hf5
    simpa [hq1] using hlen5
  · subst hf5
    simp [queued, hq1, hq2, hq3, hq4] at hlen5 ⊢
    exact hlen5
  · intro acts s hrun
    have := pool_total P env2 _ _ s adapterIdx2 acts hq1 hq2 hq3 hq4 hstart5 hrun
    rw [hheld4] at this
    exact this

/-- The sample session stopped while the capture worker holds a block, wound down,
released and started again. -/
theorem restart_after_release_witness :
    (Pipeline.StopFilter captureHolding).2 = none ∧
    ∃ s4 s5, Pipeline.ReleaseFilter woundDown = .ok s4 ∧
      Pipeline.StartFilter sampleConfig ⟨none, none⟩ s4 0 = .ok (s5, none) ∧
      s5.f.packetReadChan.length = 4 ∧ queued s5.f = 4 ∧ held s5 = 0 ∧
      ∀ acts s, run sampleConfig s5 acts = some s → queued s.f + held s = 4 :=
  restart_after_release sampleConfig ⟨none, none⟩ ⟨none, none⟩ freshProcess firstSession
    captureHolding woundDown 0 0 captureTakes windDown rfl rfl rfl (by decide) (by decide)
    (by decide) rfl

/-! ## Properties of the capture stage -/

theorem ReadPackets_nil (b : PacketBlock) : ReadPackets b [] = (b, false) := by
  simp [ReadPackets]

theorem ReadPackets_data (b : PacketBlock) (d : List IntermediateBuffer) (hd : d ≠ [])
    (hcap : 0 < b.packetBuffer.length) :
    ∃ b1, ReadPackets b d = (b1, true) ∧ b1.packetBuffer.length = b.packetBuffer.length ∧
      b1.readRequest.PacketsSuccess = min d.length b.packetBuffer.length ∧
      b1.packetBuffer.take (min d.length b.packetBuffer.length)
        = d.take b.packetBuffer.length := by
  have hdl : 0 < d.length := List.length_pos.2 hd
  have hne : ¬ (List.take b.packetBuffer.length d).length = 0 := by
    rw [List.length_take]
    omega
  unfold ReadPackets
  simp only [if_neg hne]
  refine ⟨_, rfl, ?_, ?_, ?_⟩
  · simp only [List.length_append, List.length_take, List.length_drop]
    omega
  · simp only [List.length_take]
    omega
  · simp only
    rw [List.take_append_of_le_length (by simp)]
    rw [List.take_of_length_le (by simp)]

theorem drainLoop_spec (pre : List (List IntermediateBuffer)) :
    ∀ (b : PacketBlock) (post : List (List IntermediateBuffer)) (k : Nat),
      0 < b.packetBuffer.length → (∀ d ∈ pre, d ≠ []) →
      ∃ b1, drainLoop .Running b (pre ++ [] :: post) k = some (b1, k + pre.length + 1) ∧
        b1.packetBuffer.length = b.packetBuffer.length ∧
        (pre = [] → b1 = b) ∧
        (∀ last, pre.getLast? = some last →
          b1.readRequest.PacketsSuccess = min last.length b.packetBuffer.length ∧
          b1.packetBuffer.take (min last.length b.packetBuffer.length)
            = last.take b.packetBuffer.length) := by
  induction pre with
  | nil =>
    intro b post k _ _
    refine ⟨b, ?_, rfl, fun _ => rfl, ?_⟩
    · simp [drainLoop, ReadPackets_nil]
    · intro last hl
      simp at hl
  | cons d rest ih =>
    intro b post k hcap hpre
    obtain ⟨b0, hr, hlen0, hcount0, hbuf0⟩ :=
      ReadPackets_data b d (hpre d (List.mem_cons_self d rest)) hcap
    obtain ⟨b1, h1, hlen1, hnil, hlast⟩ := ih b0 post (k + 1) (by omega)
      (fun x hx => hpre x (List.mem_cons_of_mem d hx))
    refine ⟨b1, ?_, by omega, fun h => by simp at h, ?_⟩
    · rw [List.cons_append, drainLoop, if_pos rfl, hr]
      simp only
      rw [h1, List.length_cons]
      congr 2
      omega
    · intro last hl
      cases rest with
      | nil =>
        simp only [List.getLast?_singleton, Option.some.injEq] at hl
        subst hl
        rw [hnil rfl]
        exact ⟨hcount0, hbuf0⟩
      | cons e rest1 =>
        rw [List.getLast?_cons_cons] at hl
        rw [← hlen0]
        exact hlast last hl

/-- C8 as stated fails. With the filter Running and a block of capacity four, a first read
that delivers four packets fills the block, yet the capture stage does not stop: it reads
again, the second read puts one packet over the first slot, and only the third read, which
reports nothing, ends the loop. Three reads are made and the block handed on has
read-success count one, not the four of the read that filled it. -/
theorem drain_reads_on_after_full_block :
    (ReadPackets (NewPacketBlock sampleConfig 7) fourPackets).1.readRequest.PacketsSuccess
        = (NewPacketBlock sampleConfig 7).packetBuffer.length ∧
      drainOutcome (drainLoop .Running (NewPacketBlock sampleConfig 7)
        [fourPackets, [⟨2, [9]⟩], []] 0) = some (3, 1, some ⟨2, [9]⟩) := by
  decide

/-- C8, amended. While the filter is Running, the capture stage stops reading into the
block it holds as soon as one read reports zero packets, and not before, whether or not an
earlier read filled the block: with `pre` the reads that returned data and the next read
reporting nothing, it makes exactly `pre.length + 1` reads, whatever would be delivered
later. The block it then sends on the classify queue is the block as the last read that
returned data left it: its read-success count is the number of packets that read placed,
and they are its first buffers; when no read returned data the block is handed on as it
was taken. -/
theorem drain_stops_at_first_empty_read (P : Config) (s : Pipeline) (i ctx : Nat)
    (b : PacketBlock) (pre post : List (List IntermediateBuffer))
    (hheld : s.workers[i]? = some ⟨.packetRead, ctx, .holding b⟩)
    (hrunning : s.f.filterState = .Running)
    (hcap : 0 < b.packetBuffer.length) (hpre : ∀ d ∈ pre, d ≠ [])
    (hroom : s.f.packetProcessChan.length < P.MaximumPacketBlock) :
    ∃ b1, drainLoop .Running b (pre ++ [] :: post) 0 = some (b1, pre.length + 1) ∧
      step P s (.send i (pre ++ [] :: post))
        = some ⟨{ s.f with packetProcessChan := s.f.packetProcessChan ++ [b1] },
                s.workers.set i ⟨.packetRead, ctx, .loopHead⟩⟩ ∧
      (pre = [] → b1 = b) ∧
      (∀ last, pre.getLast? = some last →
        b1.readRequest.PacketsSuccess = min last.length b.packetBuffer.length ∧
        b1.packetBuffer.take (min last.length b.packetBuffer.length)
          = last.take b.packetBuffer.length) := by
  obtain ⟨b1, h1, _, hnil, hlast⟩ := drainLoop_spec pre b post 0 hcap hpre
  rw [Nat.zero_add] at h1
  refine ⟨b1, h1, ?_, hnil, hlast⟩
  simp only [step, hheld, stageWork, hrunning, h1, outputChan, chanSend, if_pos hroom,
    setOutputChan, moveWorker]

/-- A read that fills the block, a read of one packet, then a read of nothing: three reads,
and the block handed on counts the one packet of the second read. -/
theorem drain_stops_at_first_empty_read_witness :
    ∃ b1, drainLoop .Running (NewPacketBlock sampleConfig 7)
        ([fourPackets, [⟨2, [9]⟩]] ++ [] :: [fourPackets]) 0 = some (b1, 3) ∧
      b1.readRequest.PacketsSuccess = 1 :=
  match drain_stops_at_first_empty_read sampleConfig captureHolding 0 0
      (NewPacketBlock sampleConfig 7) [fourPackets, [⟨2, [9]⟩]] [fourPackets]
      rfl rfl (by decide) (by decide) (by decide) with
  | ⟨b1, h1, _, _, hlast⟩ => ⟨b1, h1, (hlast [⟨2, [9]⟩] rfl).1⟩

/-! ## The adapter mode requests -/

/-- C7 on the failing input. After SetAdapterMode has set the mode of adapter 7 to 3,
GetAdapterMode called on an AdapterMode with handle 7 and Flags 0 sends the driver the
set-mode request, the same control code that SetAdapterMode sends, and returns without
error; Flags is still 0 afterwards, not 3, and the mode the driver keeps for adapter 7 has
become 0. -/
theorem getAdapterMode_sends_set_request :
    driverAfterSet.mode 7 = 3 ∧
      driverAfterSet.requests = [ControlCode.IOCTL_NDISRD_SET_ADAPTER_MODE] ∧
      (GetAdapterMode driverAfterSet ⟨7, 0⟩).1.requests
        = [ControlCode.IOCTL_NDISRD_SET_ADAPTER_MODE,
           ControlCode.IOCTL_NDISRD_SET_ADAPTER_MODE] ∧
      (GetAdapterMode driverAfterSet ⟨7, 0⟩).2.1.Flags = 0 ∧
      (GetAdapterMode driverAfterSet ⟨7, 0⟩).2.2 = none ∧
      (GetAdapterMode driverAfterSet ⟨7, 0⟩).1.mode 7 = 0 := by
  decide

end NdisApi
